import Mathlib

/-!
Verification of the tinytag audio-metadata reader (src/tinytag/tinytag.py)
against its natural-language specification.

The Python source is shallowly embedded: byte sources become `List Nat`
(one `Nat` per byte, values 0..255), file positions are explicit, Python
floats are modelled exactly as rationals, and fallible operations return
`Except`.  Standard-library text codecs (utf-8 / utf-16 / s-jis decoding
with replacement, base64) are not tinytag code; they are abstracted as a
`Codecs` record of functions, so every theorem quantifying over `Codecs`
holds for the real codecs as well.  Latin-1 decoding is total and trivial,
so it is embedded concretely.
-/

namespace Tinytag

/-- Python `bytes.decode('ISO-8859-1')`: byte `b` maps to code point `b`.
This decoding is total and exact. -/
def latin1 (bs : List Nat) : String :=
  ⟨bs.map Char.ofNat⟩

/-- Abstracted standard-library codecs.  tinytag calls these but does not
implement them; all theorems are proved for every interpretation. -/
structure Codecs where
  utf8 : List Nat → String
  utf16 : List Nat → String
  utf16le : List Nat → String
  utf16be : List Nat → String
  sjis : List Nat → String
  b64 : String → List Nat

/-- A concrete interpretation of the abstract codecs used to evaluate
theorems on concrete inputs (on the pure-ASCII / NUL byte strings appearing
in those inputs it agrees with the real codecs where it matters). -/
def dummyCodecs : Codecs :=
  { utf8 := latin1, utf16 := latin1, utf16le := latin1, utf16be := latin1,
    sjis := latin1, b64 := fun _ => [] }

/-- `fh.read(n)` at position `pos` of byte source `bs`: returns up to `n`
bytes (fewer near EOF, matching Python file semantics). -/
def rd (bs : List Nat) (pos n : Nat) : List Nat :=
  (bs.drop pos).take n

/-- Big-endian unsigned integer value of a byte string. -/
def beVal (bs : List Nat) : Nat :=
  bs.foldl (fun acc b => acc * 256 + b) 0

/-- Little-endian unsigned integer value of a byte string. -/
def leVal (bs : List Nat) : Nat :=
  bs.foldr (fun b acc => acc * 256 + b) 0

/-- Two's-complement reinterpretation of a `w`-bit unsigned value
(Python `struct.unpack` with a signed format). -/
def toSigned (w : Nat) (v : Nat) : Int :=
  if v < 2 ^ (w - 1) then (v : Int) else (v : Int) - 2 ^ w

/-- `bytes.find(sub)`: index of the first occurrence of `sub`, `none` when
absent (Python returns -1). -/
def findSub : List Nat → List Nat → Option Nat
  | _, [] => some 0
  | [], _ :: _ => none
  | a :: rest, sub =>
    if sub.isPrefixOf (a :: rest) then some 0
    else (findSub rest sub).map (· + 1)

/-- `bytes.find(b, start)` for a single byte. -/
def findByteFrom (bs : List Nat) (start : Nat) (b : Nat) : Option Nat :=
  match (bs.drop start).findIdx? (· = b) with
  | some i => some (start + i)
  | none => none

/-- Python `str.isdecimal()` restricted to ASCII digits (tinytag only ever
feeds it tag text; non-ASCII decimal digits are not modelled). -/
def isDecimalStr (s : String) : Bool :=
  s ≠ "" && s.data.all (fun c => '0' ≤ c && c ≤ '9')

/-- `int(s)` for a string accepted by `isDecimalStr`. -/
def decVal (s : String) : Nat :=
  s.data.foldl (fun acc c => acc * 10 + (c.toNat - '0'.toNat)) 0

/-- `str.startswith` / `str.endswith` / slicing, implemented on the
character list so that they compute by structural recursion. -/
def strStartsWith (s pre : String) : Bool :=
  pre.data.isPrefixOf s.data

def strDrop (s : String) (n : Nat) : String :=
  ⟨s.data.drop n⟩

/-- Python `str.split('\x00')` (splits at every NUL; no merging). -/
def splitNulGo : List Char → List Char → List String
  | [], cur => [⟨cur.reverse⟩]
  | c :: rest, cur =>
    if c = '\x00' then ⟨cur.reverse⟩ :: splitNulGo rest []
    else splitNulGo rest (c :: cur)

def splitNul (s : String) : List String :=
  splitNulGo s.data []

/-- `TinyTag._unpad`: strip NUL bytes from both ends of a string
(Python `str.strip('\x00')`). -/
def unpad (s : String) : String :=
  ⟨(((s.data.dropWhile (· = '\x00')).reverse.dropWhile (· = '\x00')).reverse)⟩

/-- An embedded image (`class Image`). -/
structure ImageRec where
  name : String
  data : List Nat
  mime_type : Option String
  description : Option String
deriving DecidableEq

/-- A value stored in a `Tag` field: Python stores strings, ints, floats
(modelled exactly as rationals) or—in one degenerate MP4 path—an `Image`
in the instance dictionary. -/
inductive TagValue where
  | str (s : String)
  | int (n : Int)
  | flt (q : Rat)
  | img (i : ImageRec)
deriving DecidableEq

/-- Python truthiness of a stored value. -/
def TagValue.truthy : TagValue → Bool
  | .str s => s ≠ ""
  | .int n => n ≠ 0
  | .flt q => q ≠ 0
  | .img _ => true

def truthyOpt : Option TagValue → Bool
  | none => false
  | some v => v.truthy

/-- Association-list lookup (Python `dict.get`). -/
def alGet {κ α : Type} [DecidableEq κ] (m : List (κ × α)) (k : κ) :
    Option α :=
  (m.find? (fun p => p.1 = k)).map (·.2)

/-- Association-list store (Python `dict.__setitem__`): replaces the value
in place when the key exists (dicts keep original insertion position),
appends otherwise. -/
def alSet {α : Type} (m : List (String × α)) (k : String) (v : α) : List (String × α) :=
  match m with
  | [] => [(k, v)]
  | p :: rest => if p.1 = k then (k, v) :: rest else p :: alSet rest k v

/-- `class Images`: the five list-valued slots, the `extra` mapping, plus
`dynamic` modelling attributes added to the instance dictionary at run time
(Python `self.__dict__[fieldname] = values` for an unknown name). -/
structure Images where
  front_cover : List ImageRec
  back_cover : List ImageRec
  leaflet : List ImageRec
  media : List ImageRec
  other : List ImageRec
  extra : List (String × List ImageRec)
  dynamic : List (String × List ImageRec)
deriving DecidableEq

def Images.empty : Images :=
  { front_cover := [], back_cover := [], leaflet := [], media := [],
    other := [], extra := [], dynamic := [] }

def imagesExtraPfx : String := "extra."

/-- `Images._set_field`. -/
def Images.setField (i : Images) (fieldname : String) (value : ImageRec) : Images :=
  if strStartsWith fieldname imagesExtraPfx then
    let fieldname := strDrop fieldname 6
    let vs := (alGet i.extra fieldname).getD []
    { i with extra := alSet i.extra fieldname (vs ++ [value]) }
  else
    match fieldname with
    | "front_cover" => { i with front_cover := i.front_cover ++ [value] }
    | "back_cover" => { i with back_cover := i.back_cover ++ [value] }
    | "leaflet" => { i with leaflet := i.leaflet ++ [value] }
    | "media" => { i with media := i.media ++ [value] }
    | "other" => { i with other := i.other ++ [value] }
    | "extra" => i
    | _ =>
      let vs := (alGet i.dynamic fieldname).getD []
      { i with dynamic := alSet i.dynamic fieldname (vs ++ [value]) }

/-- `Images.any`: first image in instance-dictionary order. -/
def Images.anyImage (i : Images) : Option ImageRec :=
  match i.front_cover with
  | v :: _ => some v
  | [] =>
  match i.back_cover with
  | v :: _ => some v
  | [] =>
  match i.leaflet with
  | v :: _ => some v
  | [] =>
  match i.media with
  | v :: _ => some v
  | [] =>
  match i.other with
  | v :: _ => some v
  | [] =>
  match (i.extra.map (·.2)).flatten with
  | v :: _ => some v
  | [] =>
  match (i.dynamic.map (·.2)).flatten with
  | v :: _ => some v
  | [] => none

/-- `Images._update`. -/
def Images.update (i : Images) (o : Images) : Images :=
  let i := o.front_cover.foldl (fun acc v => acc.setField "front_cover" v) i
  let i := o.back_cover.foldl (fun acc v => acc.setField "back_cover" v) i
  let i := o.leaflet.foldl (fun acc v => acc.setField "leaflet" v) i
  let i := o.media.foldl (fun acc v => acc.setField "media" v) i
  let i := o.other.foldl (fun acc v => acc.setField "other" v) i
  let i := o.extra.foldl (fun acc p =>
    p.2.foldl (fun acc2 v => acc2.setField (imagesExtraPfx ++ p.1) v) acc) i
  o.dynamic.foldl (fun acc p =>
    p.2.foldl (fun acc2 v => acc2.setField p.1 v) acc) i

/-- `class TinyTag` data: the public metadata fields, the `extra` map and
images, plus `dynamic` for attributes created at run time (only the MP4
`movement` field reaches it). -/
structure Tag where
  filename : Option String
  filesize : Int
  duration : Option TagValue
  channels : Option TagValue
  bitrate : Option TagValue
  bitdepth : Option TagValue
  samplerate : Option TagValue
  artist : Option TagValue
  albumartist : Option TagValue
  composer : Option TagValue
  album : Option TagValue
  disc : Option TagValue
  disc_total : Option TagValue
  title : Option TagValue
  track : Option TagValue
  track_total : Option TagValue
  genre : Option TagValue
  year : Option TagValue
  comment : Option TagValue
  extra : List (String × List String)
  images : Images
  dynamic : List (String × TagValue)
deriving DecidableEq

def emptyTag : Tag :=
  { filename := none, filesize := 0, duration := none, channels := none,
    bitrate := none, bitdepth := none, samplerate := none, artist := none,
    albumartist := none, composer := none, album := none, disc := none,
    disc_total := none, title := none, track := none, track_total := none,
    genre := none, year := none, comment := none, extra := [],
    images := Images.empty, dynamic := [] }

/-- `self.__dict__.get(fieldname)` restricted to metadata values.  The
`extra`, `images` and private attributes hold non-`TagValue` objects and
are modelled by their own components; no reachable `_set_field` call names
them. -/
def Tag.getField (t : Tag) (f : String) : Option TagValue :=
  match f with
  | "filename" => t.filename.map TagValue.str
  | "filesize" => some (TagValue.int t.filesize)
  | "duration" => t.duration
  | "channels" => t.channels
  | "bitrate" => t.bitrate
  | "bitdepth" => t.bitdepth
  | "samplerate" => t.samplerate
  | "artist" => t.artist
  | "albumartist" => t.albumartist
  | "composer" => t.composer
  | "album" => t.album
  | "disc" => t.disc
  | "disc_total" => t.disc_total
  | "title" => t.title
  | "track" => t.track
  | "track_total" => t.track_total
  | "genre" => t.genre
  | "year" => t.year
  | "comment" => t.comment
  | _ => alGet t.dynamic f

/-- `self.__dict__[fieldname] = value`. -/
def Tag.setRaw (t : Tag) (f : String) (v : TagValue) : Tag :=
  match f with
  | "filename" => match v with | TagValue.str s => { t with filename := some s } | _ => t
  | "filesize" => match v with | TagValue.int n => { t with filesize := n } | _ => t
  | "duration" => { t with duration := some v }
  | "channels" => { t with channels := some v }
  | "bitrate" => { t with bitrate := some v }
  | "bitdepth" => { t with bitdepth := some v }
  | "samplerate" => { t with samplerate := some v }
  | "artist" => { t with artist := some v }
  | "albumartist" => { t with albumartist := some v }
  | "composer" => { t with composer := some v }
  | "album" => { t with album := some v }
  | "disc" => { t with disc := some v }
  | "disc_total" => { t with disc_total := some v }
  | "title" => { t with title := some v }
  | "track" => { t with track := some v }
  | "track_total" => { t with track_total := some v }
  | "genre" => { t with genre := some v }
  | "year" => { t with year := some v }
  | "comment" => { t with comment := some v }
  | _ => { t with dynamic := alSet t.dynamic f v }

/-- Names present in a fresh instance dictionary (`fieldname in
self.__dict__`). -/
def baseAttrs : List String :=
  ["filename", "filesize", "duration", "channels", "bitrate", "bitdepth",
   "samplerate", "artist", "albumartist", "composer", "album", "disc",
   "disc_total", "title", "track", "track_total", "genre", "year",
   "comment", "extra", "images", "_filehandler", "_default_encoding",
   "_parse_duration", "_parse_tags", "_load_image", "_tags_parsed"]

def Tag.hasAttr (t : Tag) (f : String) : Bool :=
  baseAttrs.contains f || (alGet t.dynamic f).isSome

def extraPfx : String := "extra."

/-- The `fieldname.startswith(self._EXTRA_PREFIX)` branch of
`TinyTag._set_field` (the recursive calls in the source always land in
this branch, so it is factored out). -/
def addExtraVal (t : Tag) (fieldname : String) (value : TagValue)
    (checkConflict : Bool) : Tag :=
  let fieldname := if checkConflict && t.hasAttr fieldname
    then "_" ++ fieldname else fieldname
  let extraValues := (alGet t.extra fieldname).getD []
  match value with
  | TagValue.str s =>
    if s ∈ extraValues then t
    else { t with extra := alSet t.extra fieldname (extraValues ++ [s]) }
  | _ => t

/-- Python `i_value != old_value` inside `_set_field` (a string compared
against the stored value; values of other types always compare unequal). -/
def neqOld (s : String) : Option TagValue → Bool
  | some (TagValue.str o) => s ≠ o
  | some _ => true
  | none => true

/-- `TinyTag._set_field`. -/
def Tag.setField (t : Tag) (fieldname : String) (value : TagValue)
    (checkConflict : Bool) : Tag :=
  if strStartsWith fieldname extraPfx then
    addExtraVal t (strDrop fieldname 6) value checkConflict
  else
    let old := t.getField fieldname
    match value with
    | TagValue.str s =>
      let values := splitNul s
      let t1 := values.enum.foldl
        (fun acc p =>
          if p.1 ≠ 0 || (truthyOpt old && neqOld p.2 old) then
            addExtraVal acc fieldname (TagValue.str p.2) false
          else acc) t
      if truthyOpt old then t1
      else t1.setRaw fieldname (TagValue.str (values.headD ""))
    | v => if !v.truthy && truthyOpt old then t else t.setRaw fieldname v

/-- `TinyTag._update`: merge the values of another tag into this one. -/
def Tag.update (t : Tag) (o : Tag) : Tag :=
  let t := match o.filename with
    | some s => t.setField "filename" (TagValue.str s) true
    | none => t
  let t := t.setField "filesize" (TagValue.int o.filesize) true
  let upd := fun (acc : Tag) (name : String) (v : Option TagValue) =>
    match v with
    | some v => acc.setField name v true
    | none => acc
  let t := upd t "duration" o.duration
  let t := upd t "channels" o.channels
  let t := upd t "bitrate" o.bitrate
  let t := upd t "bitdepth" o.bitdepth
  let t := upd t "samplerate" o.samplerate
  let t := upd t "artist" o.artist
  let t := upd t "albumartist" o.albumartist
  let t := upd t "composer" o.composer
  let t := upd t "album" o.album
  let t := upd t "disc" o.disc
  let t := upd t "disc_total" o.disc_total
  let t := upd t "title" o.title
  let t := upd t "track" o.track
  let t := upd t "track_total" o.track_total
  let t := upd t "genre" o.genre
  let t := upd t "year" o.year
  let t := upd t "comment" o.comment
  let t := o.extra.foldl (fun acc p =>
    p.2.foldl (fun acc2 v =>
      addExtraVal acc2 p.1 (TagValue.str v) false) acc) t
  let t := { t with images := t.images.update o.images }
  o.dynamic.foldl (fun acc p => acc.setField p.1 p.2 true) t

/-! ## Dispatcher (`TinyTag.get`, `_get_parser_class`) -/

/-- The closed set of parser classes. -/
inductive PKind where
  | id3 | ogg | wave | flac | wma | mp4 | aiff
deriving DecidableEq

/-- A structural exception raised inside a parser (`get` wraps every such
exception in `ParseError`). -/
inductive PErr where
  | parseFail
deriving DecidableEq

/-- Errors of the public `get` entry point. -/
inductive GetErr where
  | unsupportedFormat
  | parseFail
deriving DecidableEq

/-- `TinyTag._file_extension_mapping`, flattened in source order
(`str.endswith` against a tuple tests each member). -/
def extTable : List (String × PKind) :=
  [(".mp1", PKind.id3), (".mp2", PKind.id3), (".mp3", PKind.id3),
   (".oga", PKind.ogg), (".ogg", PKind.ogg), (".opus", PKind.ogg),
   (".spx", PKind.ogg),
   (".wav", PKind.wave),
   (".flac", PKind.flac),
   (".wma", PKind.wma),
   (".m4b", PKind.mp4), (".m4a", PKind.mp4), (".m4r", PKind.mp4),
   (".m4v", PKind.mp4), (".mp4", PKind.mp4), (".aax", PKind.mp4),
   (".aaxc", PKind.mp4),
   (".aiff", PKind.aiff), (".aifc", PKind.aiff), (".aif", PKind.aiff),
   (".afc", PKind.aiff)]

/-- ASCII lowercasing (`str.lower()`; tinytag's tables are ASCII). -/
def lowerChar (c : Char) : Char :=
  if 'A' ≤ c && c ≤ 'Z' then Char.ofNat (c.toNat + 32) else c

def lowerStr (s : String) : String :=
  ⟨s.data.map lowerChar⟩

/-- `str.endswith`. -/
def strEndsWith (s suffixStr : String) : Bool :=
  suffixStr.data.isSuffixOf s.data

/-- `TinyTag._get_parser_for_filename`: case-insensitive suffix match. -/
def getParserForFilename (f : String) : Option PKind :=
  (extTable.find? (fun p => strEndsWith (lowerStr f) p.1)).map (·.2)

/-- `TinyTag.is_supported`. -/
def isSupported (f : String) : Bool :=
  (getParserForFilename f).isSome

/-- One byte of a magic pattern: a literal byte, or `none` for the regex
`.` (any byte except newline, Python `re` default). -/
def MagicByte : Type := Option Nat

/-- A magic-byte pattern: its raw Python length (`len(sig)` counts the
`^` anchor, and the header read length is the maximum of these) and the
byte pattern itself. -/
structure MagicPat where
  rawLen : Nat
  pat : List (Option Nat)
  kind : PKind

def exs (bs : List Nat) : List (Option Nat) := bs.map some

def dots (n : Nat) : List (Option Nat) := List.replicate n none

/-- `TinyTag._magic_bytes_mapping` in source order. -/
def magicTable : List MagicPat :=
  [⟨4, exs [73, 68, 51], PKind.id3⟩,                -- ^ID3
   ⟨3, exs [255, 251], PKind.id3⟩,                  -- ^\xff\xfb
   ⟨34, exs [79, 103, 103, 83] ++ dots 25 ++ exs [70, 76, 65, 67],
    PKind.ogg⟩,                                     -- ^OggS...FLAC
   ⟨33, exs [79, 103, 103, 83] ++ dots 24 ++ exs [79, 112, 117, 115],
    PKind.ogg⟩,                                     -- ^OggS...Opus
   ⟨34, exs [79, 103, 103, 83] ++ dots 24 ++ exs [83, 112, 101, 101, 120],
    PKind.ogg⟩,                                     -- ^OggS...Speex
   ⟨36, exs [79, 103, 103, 83] ++ dots 25 ++
    exs [118, 111, 114, 98, 105, 115], PKind.ogg⟩,  -- ^OggS...vorbis
   ⟨13, exs [82, 73, 70, 70] ++ dots 4 ++ exs [87, 65, 86, 69],
    PKind.wave⟩,                                    -- ^RIFF....WAVE
   ⟨5, exs [102, 76, 97, 67], PKind.flac⟩,          -- ^fLaC
   ⟨17, exs [48, 38, 178, 117, 142, 102, 207, 17, 166, 217, 0, 170, 0,
    98, 206, 108], PKind.wma⟩,                      -- ASF header GUID
   ⟨11, dots 4 ++ exs [102, 116, 121, 112, 77, 52, 65], PKind.mp4⟩,
   ⟨11, dots 4 ++ exs [102, 116, 121, 112, 97, 97, 120], PKind.mp4⟩,
   ⟨12, dots 4 ++ exs [102, 116, 121, 112, 97, 97, 120, 99], PKind.mp4⟩,
   ⟨2, exs [255, 241], PKind.mp4⟩,                  -- \xff\xf1
   ⟨13, exs [70, 79, 82, 77] ++ dots 4 ++ exs [65, 73, 70, 70],
    PKind.aiff⟩,                                    -- ^FORM....AIFF
   ⟨13, exs [70, 79, 82, 77] ++ dots 4 ++ exs [65, 73, 70, 67],
    PKind.aiff⟩]                                    -- ^FORM....AIFC

/-- `re.match` of a pattern against the header (anchored prefix match). -/
def matchPat : List (Option Nat) → List Nat → Bool
  | [], _ => true
  | _ :: _, [] => false
  | p :: ps, b :: bs =>
    (match p with
     | some v => b = v
     | none => b ≠ 10) && matchPat ps bs

/-- `max(len(sig) for sig in cls._magic_bytes_mapping)`. -/
def maxMagicLen : Nat :=
  (magicTable.map (·.rawLen)).foldl Nat.max 0

/-- `TinyTag._get_parser_for_file_handle`. -/
def getParserForFileHandle (content : List Nat) : Option PKind :=
  let header := content.take maxMagicLen
  (magicTable.find? (fun m => matchPat m.pat header)).map (·.kind)

/-- `TinyTag._get_parser_class` (invoked on the `TinyTag` class itself,
with a file object always supplied).  An empty filename is falsy in
Python and skips the extension lookup. -/
def getParserClass (filename : Option String) (content : List Nat) :
    Option PKind :=
  match (match filename with
         | some f => if f = "" then none else getParserForFilename f
         | none => none) with
  | some k => some k
  | none => getParserForFileHandle content

/-- The tag as constructed by `get` before `_load` runs. -/
def initTag (filename : Option String) (fsize : Int) : Tag :=
  { emptyTag with filename := filename, filesize := fsize }

/-- `TinyTag.get` with the parser stage abstracted: `load k tag tags
duration image content` stands for `tag._load(...)` on parser class `k`.
Theorems quantified over `load` hold in particular for the real parsers. -/
def getWith
    (load : PKind → Tag → Bool → Bool → Bool → List Nat → Except PErr Tag)
    (filename : Option String) (content : List Nat)
    (tags dur img : Bool) : Except GetErr Tag :=
  let filesize : Int := content.length
  match getParserClass filename content with
  | none => Except.error GetErr.unsupportedFormat
  | some k =>
    let tag := initTag filename filesize
    if filesize > 0 then
      match load k tag tags dur img content with
      | Except.ok t => Except.ok t
      | Except.error _ => Except.error GetErr.parseFail
    else Except.ok tag


/-! ## MPEG / ID3 parser (`class _ID3`) -/

/-- Parsing context: the flags and encoding override that `get` installs
on the parser instance (`_parse_tags`, `_parse_duration`, `_load_image`,
`_default_encoding`), plus the abstract codecs. -/
structure Ctx where
  codecs : Codecs
  defaultEnc : Option (List Nat → String)
  parseTags : Bool
  parseDuration : Bool
  loadImage : Bool

/-- Exact read: `struct.unpack` raises on a short read. -/
def rdE (bs : List Nat) (pos n : Nat) : Except PErr (List Nat) :=
  let r := rd bs pos n
  if r.length = n then Except.ok r else Except.error PErr.parseFail

/-- Relative seek; Python raises when the resulting position is
negative. -/
def seekRel (pos : Nat) (delta : Int) : Except PErr Nat :=
  let np := (pos : Int) + delta
  if np < 0 then Except.error PErr.parseFail else Except.ok np.toNat

/-- Lexicographic comparison of byte strings (Python `bytes.__lt__`). -/
def bytesLt : List Nat → List Nat → Bool
  | [], [] => false
  | [], _ :: _ => true
  | _ :: _, [] => false
  | a :: as, b :: bs => if a < b then true else if b < a then false else bytesLt as bs

/-- `bytes.isalpha()`. -/
def bytesIsAlpha (bs : List Nat) : Bool :=
  bs ≠ [] && bs.all (fun b => (65 ≤ b && b ≤ 90) || (97 ≤ b && b ≤ 122))

/-- The encoding used for `0x00`-tagged ID3 text and ID3v1 fields:
`self._default_encoding or 'ISO-8859-1'`. -/
def defaultDecode (ctx : Ctx) : List Nat → String :=
  ctx.defaultEnc.getD latin1

/-- `_ID3._ID3V1_GENRES` (189 entries). -/
def id3v1Genres : List String :=
  ["Blues", "Classic Rock", "Country", "Dance", "Disco", "Funk", "Grunge",
   "Hip-Hop", "Jazz", "Metal", "New Age", "Oldies", "Other", "Pop", "R&B",
   "Rap", "Reggae", "Rock", "Techno", "Industrial", "Alternative", "Ska",
   "Death Metal", "Pranks", "Soundtrack", "Euro-Techno", "Ambient",
   "Trip-Hop", "Vocal", "Jazz+Funk", "Fusion", "Trance", "Classical",
   "Instrumental", "Acid", "House", "Game", "Sound Clip", "Gospel", "Noise",
   "AlternRock", "Bass", "Soul", "Punk", "Space", "Meditative",
   "Instrumental Pop", "Instrumental Rock", "Ethnic", "Gothic", "Darkwave",
   "Techno-Industrial", "Electronic", "Pop-Folk", "Eurodance", "Dream",
   "Southern Rock", "Comedy", "Cult", "Gangsta", "Top 40", "Christian Rap",
   "Pop/Funk", "Jungle", "Native American", "Cabaret", "New Wave",
   "Psychadelic", "Rave", "Showtunes", "Trailer", "Lo-Fi", "Tribal",
   "Acid Punk", "Acid Jazz", "Polka", "Retro", "Musical", "Rock & Roll",
   "Hard Rock", "Folk", "Folk-Rock", "National Folk", "Swing", "Fast Fusion",
   "Bebob", "Latin", "Revival", "Celtic", "Bluegrass", "Avantgarde",
   "Gothic Rock", "Progressive Rock", "Psychedelic Rock", "Symphonic Rock",
   "Slow Rock", "Big Band", "Chorus", "Easy listening", "Acoustic", "Humour",
   "Speech", "Chanson", "Opera", "Chamber Music", "Sonata", "Symphony",
   "Booty Bass", "Primus", "Porn Groove", "Satire", "Slow Jam", "Club",
   "Tango", "Samba", "Folklore", "Ballad", "Power Ballad", "Rhythmic Soul",
   "Freestyle", "Duet", "Punk Rock", "Drum Solo", "A capella", "Euro-House",
   "Dance Hall", "Goa", "Drum & Bass", "Club-House", "Hardcore Techno",
   "Terror", "Indie", "BritPop", "", "Polsk Punk", "Beat",
   "Christian Gangsta Rap", "Heavy Metal", "Black Metal",
   "Contemporary Christian", "Christian Rock", "Merengue", "Salsa",
   "Thrash Metal", "Anime", "Jpop", "Synthpop", "Abstract", "Art Rock",
   "Baroque", "Bhangra", "Big Beat", "Breakbeat", "Chillout", "Downtempo",
   "Dub", "EBM", "Eclectic", "Electro", "Electroclash", "Emo", "Experimental",
   "Garage", "Illbient", "Industro-Goth", "Jam Band", "Krautrock",
   "Leftfield", "Lounge", "Math Rock", "New Romantic", "Nu-Breakz",
   "Post-Punk", "Post-Rock", "Psytrance", "Shoegaze", "Space Rock",
   "Trop Rock", "World Music", "Neoclassical", "Audiobook", "Audio Theatre",
   "Neue Deutsche Welle", "Podcast", "Indie Rock", "G-Funk", "Dubstep",
   "Garage Rock", "Psybient"]

/-- `_ID3._ID3_MAPPING` (frame id to field name). -/
def id3Mapping : List (String × String) :=
  [("COMM", "comment"), ("COM", "comment"), ("TRCK", "track"),
   ("TRK", "track"), ("TYER", "year"), ("TYE", "year"), ("TDRC", "year"),
   ("TALB", "album"), ("TAL", "album"), ("TPE1", "artist"), ("TP1", "artist"),
   ("TIT2", "title"), ("TT2", "title"), ("TCON", "genre"), ("TCO", "genre"),
   ("TPOS", "disc"), ("TPA", "disc"), ("TPE2", "albumartist"),
   ("TP2", "albumartist"), ("TCOM", "composer"), ("TCM", "composer"),
   ("WOAR", "extra.url"), ("WAR", "extra.url"), ("TSRC", "extra.isrc"),
   ("TRC", "extra.isrc"), ("TCOP", "extra.copyright"),
   ("TCR", "extra.copyright"), ("TBPM", "extra.bpm"), ("TBP", "extra.bpm"),
   ("TKEY", "extra.initial_key"), ("TKE", "extra.initial_key"),
   ("TLAN", "extra.language"), ("TLA", "extra.language"),
   ("TPUB", "extra.publisher"), ("TPB", "extra.publisher"),
   ("USLT", "extra.lyrics"), ("ULT", "extra.lyrics"),
   ("TPE3", "extra.conductor"), ("TP3", "extra.conductor"),
   ("TEXT", "extra.lyricist"), ("TXT", "extra.lyricist"),
   ("TSST", "extra.set_subtitle"), ("TENC", "extra.encoded_by"),
   ("TEN", "extra.encoded_by"), ("TSSE", "extra.encoder_settings"),
   ("TSS", "extra.encoder_settings"), ("TMED", "extra.media"),
   ("TMT", "extra.media"), ("TDOR", "extra.original_date"),
   ("TORY", "extra.original_year"), ("TOR", "extra.original_year"),
   ("WCOP", "extra.license")]

/-- `_ID3._IMAGE_TYPES` (21 entries, indexed by picture type). -/
def id3ImageTypes : List String :=
  ["other", "extra.icon", "extra.other_icon", "front_cover", "back_cover",
   "leaflet", "media", "extra.lead_artist", "extra.artist", "extra.conductor",
   "extra.band", "extra.composer", "extra.lyricist",
   "extra.recording_location", "extra.during_recording",
   "extra.during_performance", "extra.video", "extra.bright_colored_fish",
   "extra.illustration", "extra.band_logo", "extra.publisher_logo"]


def id3MappingCustom : List (String × String) :=
  [("artists", "artist"), ("director", "extra.director"),
   ("license", "extra.license"), ("originalyear", "extra.original_year"),
   ("barcode", "extra.barcode"), ("catalognumber", "extra.catalog_number")]

def disallowedFrameIds : List String := ["PRIV", "RGAD", "GEOB", "GEO", "ÿû°d"]

def id3v22ImageFormats : List (String × String) :=
  [("bmp", "image/bmp"), ("jpg", "image/jpeg"), ("png", "image/png")]

def unknownImageType : String := "extra.unknown"

/-- `_ID3._decode_string`. -/
def decodeString (ctx : Ctx) (bytestr0 : List Nat) (language : Bool) : String :=
  let step : List Nat × (List Nat → String) :=
    match bytestr0 with
    | 0 :: rest => (rest, defaultDecode ctx)
    | 1 :: rest =>
      let bs := rest
      let bs := if language then
          let bs := if (bs.drop 3).take 2 = [254, 255] ∨
              (bs.drop 3).take 2 = [255, 254] then bs.drop 3 else bs
          let bs := if bytesIsAlpha (bs.take 3) then bs.drop 3 else bs
          bs.dropWhile (· = 0)
        else bs
      let enc := if bs.take 2 = [254, 255] then ctx.codecs.utf16be
        else ctx.codecs.utf16le
      let bs := if bs.take 2 = [254, 255] ∨ bs.take 2 = [255, 254] then
          (if bs.length % 2 = 0 then bs.drop 2 else (bs.drop 2).dropLast)
        else bs
      let bs := if bs.take 4 = [0, 0, 255, 254] then bs.drop 4 else bs
      (bs, enc)
    | 2 :: rest =>
      (if bytestr0.length % 2 = 0 then rest.dropLast else rest,
       ctx.codecs.utf16le)
    | 3 :: rest => (rest, ctx.codecs.utf8)
    | bs => (bs, defaultDecode ctx)
  let bs := if language ∧ bytesIsAlpha (step.1.take 3) then step.1.drop 3
    else step.1
  unpad (step.2 bs)

/-- `_ID3._unsynchsafe` (callers always pass 4 bytes). -/
def unsynchsafe (bs : List Nat) : Nat :=
  match bs with
  | [a, b, c, d] => (a <<< 21) + (b <<< 14) + (c <<< 7) + d
  | _ => 0

/-- `_ID3._index_utf16` (searches at stride `len(search)`). -/
def indexUtf16Go (search : List Nat) (step : Nat) :
    Nat → List Nat → Nat → Int
  | 0, _, _ => -1
  | fuel + 1, l, i =>
    match l with
    | [] => -1
    | _ :: _ =>
      if search.isPrefixOf l then (i : Int)
      else indexUtf16Go search step fuel (l.drop step) (i + step)

def indexUtf16 (s search : List Nat) : Int :=
  indexUtf16Go search search.length (s.length + 1) s 0

/-- `bytes.index(b, start)` (raises when absent). -/
def indexByteFrom (bs : List Nat) (start b : Nat) : Except PErr Nat :=
  match (bs.drop start).findIdx? (· = b) with
  | some i => Except.ok (start + i)
  | none => Except.error PErr.parseFail

/-- Python `str.partition('\x00')`. -/
def partitionNul (s : String) : String × Bool × String :=
  match s.data.findIdx? (· = '\x00') with
  | some i => (⟨s.data.take i⟩, true, ⟨s.data.drop (i + 1)⟩)
  | none => (s, false, "")

/-- Generic single-character split (Python `str.split(sep)` for a
one-character separator). -/
def splitChGo (sep : Char) : List Char → List Char → List String
  | [], cur => [⟨cur.reverse⟩]
  | c :: rest, cur =>
    if c = sep then ⟨cur.reverse⟩ :: splitChGo sep rest []
    else splitChGo sep rest (c :: cur)

def splitCh (sep : Char) (s : String) : List String :=
  splitChGo sep s.data []

/-- `_ID3.__parse_custom_field`: `some` when the content was a key-value
pair and a field was set, `none` when nothing was stored. -/
def id3ParseCustomField (t : Tag) (content : String) : Option Tag :=
  let p := partitionNul content
  let lower := lowerStr p.1
  let value : String := ⟨p.2.2.data.dropWhile (· = '\uFEFF')⟩
  if (lower != "") && p.2.1 && (value != "") then
    let fieldName := (alGet id3MappingCustom lower).getD (extraPfx ++ lower)
    some (t.setField fieldName (TagValue.str value) true)
  else none

/-- The genre decoding of `_ID3._parse_frame`: an ID3v1 genre index may
hide in a TCON/TCO payload, bare (`"N"`) or in parens (`"(N)"`). -/
def genreLookup (value : String) : String :=
  let genreId :=
    if isDecimalStr value then decVal value
    else if value.data.take 1 = ['('] then
      match value.data.findIdx? (· = ')') with
      | some e =>
        let parens : String := ⟨(value.data.drop 1).take (e - 1)⟩
        if e > 0 ∧ isDecimalStr parens then decVal parens else 255
      | none => 255
    else 255
  if genreId < id3v1Genres.length then (id3v1Genres.get? genreId).getD value
  else value

/-- `_ID3._create_tag_image`.  A picture type equal to
`len(_IMAGE_TYPES)` passes the (off-by-one) bounds check and raises
`IndexError` in the source; larger values map to the unknown type. -/
def createTagImage (data : List Nat) (picType : Nat)
    (mimeType : Option String) (description : Option String) :
    Except PErr (String × ImageRec) := do
  let fieldName ←
    if picType ≤ id3ImageTypes.length then
      match id3ImageTypes.get? picType with
      | some n => Except.ok n
      | none => Except.error PErr.parseFail
    else Except.ok unknownImageType
  let name := if strStartsWith fieldName extraPfx then strDrop fieldName 6
    else fieldName
  let img : ImageRec :=
    { name := name, data := data, mime_type := none, description := none }
  let img := match mimeType with
    | some m => if m ≠ "" then { img with mime_type := some m } else img
    | none => img
  let img := match description with
    | some d => if d ≠ "" then { img with description := some d } else img
    | none => img
  Except.ok (fieldName, img)

/-- `_ID3._parse_frame`: returns the new position, the updated tag, and
the frame size (0 terminates the caller loop). -/
def id3ParseFrame (ctx : Ctx) (bs : List Nat) (pos major : Nat) (t : Tag) :
    Except PErr (Nat × Tag × Nat) := do
  let frameHeaderSize := if major = 2 then 6 else 10
  let frameSizeBytes := if major = 2 then 3 else 4
  let isSynchsafe := major = 4
  let fhd := rd bs pos frameHeaderSize
  if fhd.length ≠ frameHeaderSize then Except.ok (pos + fhd.length, t, 0)
  else
  let frameId := decodeString ctx (fhd.take frameSizeBytes) false
  let frameSize :=
    if frameSizeBytes = 3 then beVal ((fhd.drop 3).take 3)
    else if isSynchsafe then unsynchsafe ((fhd.drop 4).take 4)
    else beVal ((fhd.drop 4).take 4)
  if frameSize > 0 then
    let content := rd bs (pos + frameHeaderSize) frameSize
    let newpos := pos + frameHeaderSize + content.length
    match alGet id3Mapping frameId with
    | some fieldname =>
      if !ctx.parseTags then Except.ok (newpos, t, frameSize)
      else
      let language := fieldname = "comment" ∨ fieldname = "extra.lyrics"
      let value := decodeString ctx content language
      if value = "" then Except.ok (newpos, t, frameSize)
      else if fieldname = "comment" then
        match id3ParseCustomField t value with
        | some t2 => Except.ok (newpos, t2, frameSize)
        | none =>
          Except.ok (newpos, t.setField fieldname (TagValue.str value) true,
            frameSize)
      else if fieldname = "track" ∨ fieldname = "disc" then
        let step :=
          if value.data.contains '/' then
            let parts := splitCh '/' value
            let v := parts.headD ""
            let total := (parts.drop 1).headD ""
            if isDecimalStr total then
              (v, t.setField (fieldname ++ "_total")
                (TagValue.int (decVal total)) true)
            else (v, t)
          else (value, t)
        let t3 := if isDecimalStr step.1 then
            step.2.setField fieldname (TagValue.int (decVal step.1)) true
          else step.2
        Except.ok (newpos, t3, frameSize)
      else
        let value := if fieldname = "genre" then genreLookup value else value
        Except.ok (newpos, t.setField fieldname (TagValue.str value) true,
          frameSize)
    | none =>
      if frameId = "TXXX" ∨ frameId = "TXX" then
        if ctx.parseTags then
          let value := decodeString ctx content false
          if value ≠ "" then
            Except.ok (newpos, (id3ParseCustomField t value).getD t, frameSize)
          else Except.ok (newpos, t, frameSize)
        else Except.ok (newpos, t, frameSize)
      else if frameId = "APIC" ∨ frameId = "PIC" then
        if ctx.loadImage then do
          let encoding := content.take 1
          let mtDesc ←
            if frameId = "PIC" then
              let imgformat :=
                lowerStr (decodeString ctx ((content.drop 1).take 3) false)
              Except.ok (alGet id3v22ImageFormats imgformat, 5)
            else do
              let mtep ← indexByteFrom content 1 0
              let m :=
                lowerStr (decodeString ctx ((content.drop 1).take (mtep - 1))
                  false)
              let m := (alGet id3v22ImageFormats m).getD m
              Except.ok ((some m : Option String), mtep + 2)
          let descStart := mtDesc.2
          let picType ← match content.get? (descStart - 1) with
            | some b => Except.ok b
            | none => Except.error PErr.parseFail
          let termination := if encoding = [0] ∨ encoding = [3] then [0]
            else [0, 0]
          let descLength := indexUtf16 (content.drop descStart) termination
          let descEnd : Int := (descStart : Int) + descLength +
            termination.length
          let description := decodeString ctx
            ((content.drop descStart).take (descEnd - descStart).toNat) false
          let fi ← createTagImage (content.drop descEnd.toNat) picType
            mtDesc.1 (some description)
          Except.ok (newpos, { t with images := t.images.setField fi.1 fi.2 },
            frameSize)
        else Except.ok (newpos, t, frameSize)
      else if frameId ∈ disallowedFrameIds then Except.ok (newpos, t, frameSize)
      else
        if ctx.parseTags then
          let value := decodeString ctx content false
          if value ≠ "" then
            Except.ok (newpos,
              t.setField (extraPfx ++ lowerStr frameId) (TagValue.str value)
                true, frameSize)
          else Except.ok (newpos, t, frameSize)
        else Except.ok (newpos, t, frameSize)
  else Except.ok (pos + frameHeaderSize, t, 0)

/-- `_ID3._parse_id3v2_header`: returns (new position, declared tag size,
extended flag, major version).  `self._bytepos_after_id3v2` is set to the
returned size. -/
def id3ParseHeader (bs : List Nat) (pos : Nat) :
    Except PErr (Nat × Nat × Bool × Nat) := do
  let header ← rdE bs pos 10
  if latin1 (header.take 3) = "ID3" then
    let major := header.getD 3 0
    let extended := ((header.getD 5 0) &&& 64) != 0
    let size := unsynchsafe ((header.drop 6).take 4)
    Except.ok (pos + 10, size, extended, major)
  else Except.ok (pos + 10, 0, false, 0)

/-- The frame loop of `_ID3._parse_id3v2` (`while parsed_size < size`). -/
def id3FrameLoop (ctx : Ctx) (bs : List Nat) (major size : Nat) :
    Nat → Nat → Nat → Tag → Except PErr Tag
  | 0, _, _, t => Except.ok t
  | fuel + 1, pos, parsedSize, t =>
    if parsedSize < size then do
      let r ← id3ParseFrame ctx bs pos major t
      if r.2.2 = 0 then Except.ok r.2.1
      else id3FrameLoop ctx bs major size fuel r.1 (parsedSize + r.2.2) r.2.1
    else Except.ok t

/-- `_ID3._parse_id3v2`: returns (position after the tag, updated tag,
`_bytepos_after_id3v2`). -/
def id3ParseId3v2 (ctx : Ctx) (bs : List Nat) (pos : Nat) (t : Tag) :
    Except PErr (Nat × Tag × Nat) := do
  let h ← id3ParseHeader bs pos
  let pos1 := h.1
  let size := h.2.1
  let extended := h.2.2.1
  let major := h.2.2.2
  if size > 0 then do
    let endPos := pos1 + size
    let pos2 ←
      if extended then
        let raw := rd bs pos1 6
        if (raw.take 4).length ≠ 4 then Except.error PErr.parseFail
        else
          let delta : Int := (unsynchsafe (raw.take 4) : Int) - 6
          seekRel (pos1 + raw.length) delta
      else Except.ok pos1
    let t2 ← id3FrameLoop ctx bs major size (size + 1) pos2 0 t
    Except.ok (endPos, t2, size)
  else Except.ok (pos1, t, size)

/-- `_ID3._parse_id3v1` (fields are only set where ID3v2 left them
unset). -/
def id3ParseId3v1 (ctx : Ctx) (bs : List Nat) (pos : Nat) (t : Tag) : Tag :=
  if rd bs pos 3 ≠ [84, 65, 71] then t
  else
    let deco := fun (x : List Nat) => unpad (defaultDecode ctx x)
    let fields := rd bs (pos + 3) 125
    let t := if !truthyOpt t.title then
        let v := deco (fields.take 30)
        if v ≠ "" then t.setField "title" (TagValue.str v) true else t
      else t
    let t := if !truthyOpt t.artist then
        let v := deco ((fields.drop 30).take 30)
        if v ≠ "" then t.setField "artist" (TagValue.str v) true else t
      else t
    let t := if !truthyOpt t.album then
        let v := deco ((fields.drop 60).take 30)
        if v ≠ "" then t.setField "album" (TagValue.str v) true else t
      else t
    let t := if !truthyOpt t.year then
        let v := deco ((fields.drop 90).take 4)
        if v ≠ "" then t.setField "year" (TagValue.str v) true else t
      else t
    let comment0 := (fields.drop 94).take 30
    let last2 := comment0.drop (comment0.length - 2)
    let step :=
      if bytesLt [0, 0] last2 && bytesLt last2 [1, 0] then
        let t := if t.track = none then
            t.setField "track" (TagValue.int (comment0.getLast?.getD 0)) true
          else t
        (t, comment0.take (comment0.length - 2))
      else (t, comment0)
    let t := step.1
    let t := if !truthyOpt t.comment then
        let v := deco step.2
        if v ≠ "" then t.setField "comment" (TagValue.str v) true else t
      else t
    if !truthyOpt t.genre then
      match (fields.drop 124).head? with
      | some gid =>
        if gid < id3v1Genres.length then
          t.setField "genre" (TagValue.str ((id3v1Genres.get? gid).getD ""))
            true
        else t
      | none => t
    else t

/-- `_ID3._parse_tag`: ID3v2, then the ID3v1 trailer when the (tag's)
filesize exceeds 128.  Returns (new position, tag,
`_bytepos_after_id3v2`). -/
def id3ParseTag (ctx : Ctx) (bs : List Nat) (pos : Nat) (t : Tag) :
    Except PErr (Nat × Tag × Nat) := do
  let r ← id3ParseId3v2 ctx bs pos t
  if r.2.1.filesize > 128 then
    Except.ok (bs.length, id3ParseId3v1 ctx bs (bs.length - 128) r.2.1, r.2.2)
  else Except.ok r

/-- `_ID3._parse_xing_header`: returns (frame count, byte count), both
signed 32-bit reads.  The TOC / VBR-scale seeks only move the discarded
scratch reader and are omitted. -/
def parseXing (bs : List Nat) (pos : Nat) : Except PErr (Int × Int) := do
  let flagsB ← rdE bs (pos + 4) 4
  let u := beVal flagsB
  let pos := pos + 8
  let fr ←
    if u &&& 1 ≠ 0 then do
      let fb ← rdE bs pos 4
      Except.ok (toSigned 32 (beVal fb), pos + 4)
    else Except.ok ((0 : Int), pos)
  let bc ←
    if u &&& 2 ≠ 0 then do
      let bb ← rdE bs fr.2 4
      Except.ok (toSigned 32 (beVal bb), fr.2 + 4)
    else Except.ok ((0 : Int), fr.2)
  Except.ok (fr.1, bc.1)

def mp3SampleRates : List (List Nat) :=
  [[11025, 12000, 8000], [0, 0, 0], [22050, 24000, 16000],
   [44100, 48000, 32000]]

def brV1L1 : List Nat :=
  [0, 32, 64, 96, 128, 160, 192, 224, 256, 288, 320, 352, 384, 416, 448, 0]

def brV1L2 : List Nat :=
  [0, 32, 48, 56, 64, 80, 96, 112, 128, 160, 192, 224, 256, 320, 384, 0]

def brV1L3 : List Nat :=
  [0, 32, 40, 48, 56, 64, 80, 96, 112, 128, 160, 192, 224, 256, 320, 0]

def brV2L1 : List Nat :=
  [0, 32, 48, 56, 64, 80, 96, 112, 128, 144, 160, 176, 192, 224, 256, 0]

def brV2L2 : List Nat :=
  [0, 8, 16, 24, 32, 40, 48, 56, 64, 80, 96, 112, 128, 144, 160, 0]

def brNone : List Nat := List.replicate 16 0

/-- `_ID3._BITRATE_BY_VERSION_BY_LAYER` (`_V2L3 = _V2L2`). -/
def mp3Bitrates : List (List (List Nat)) :=
  [[brNone, brV2L2, brV2L2, brV2L1],
   [brNone, brNone, brNone, brNone],
   [brNone, brV2L2, brV2L2, brV2L1],
   [brNone, brV1L3, brV1L2, brV1L1]]

def channelsPerMode : List Nat := [2, 2, 2, 1]

/-- Frame-header field decodings of `_ID3._determine_duration` (`b1`,
`b2` are the second and third header bytes). -/
def mp3FrameBitrate (b1 b2 : Nat) : Nat :=
  ((mp3Bitrates.getD ((b1 >>> 3) &&& 3) []).getD ((b1 >>> 1) &&& 3) []).getD
    ((b2 >>> 4) &&& 15) 0

def mp3FrameSamplerate (b1 b2 : Nat) : Nat :=
  (mp3SampleRates.getD ((b1 >>> 3) &&& 3) []).getD ((b2 >>> 2) &&& 3) 0

/-- `frame_length = (144000 * frame_bitrate) // samplerate + padding`. -/
def mp3FrameLength (b1 b2 : Nat) : Nat :=
  144000 * mp3FrameBitrate b1 b2 / mp3FrameSamplerate b1 b2 +
    (if b2 &&& 2 ≠ 0 then 1 else 0)

/-- `samples_per_frame = 576 if mpeg_id <= 2 else 1152` (the source applies
576 to every MPEG-2/2.5 frame, whatever its layer). -/
def xingSamplesPerFrame (mpegId : Nat) : Nat :=
  if mpegId ≤ 2 then 576 else 1152

/-- `(_ID3._MAX_ESTIMATION_SEC * 44100) // _ID3._SAMPLES_PER_FRAME`
= `30.0 * 44100 // 1152` = 1148. -/
def maxEstimationFrames : Nat := 1148

/-- Numeric value of a stored tag value (the walker only ever stores
integers in `samplerate`). -/
def rawNum (o : Option TagValue) : Rat :=
  match o with
  | some (TagValue.int n) => (n : Rat)
  | some (TagValue.flt q) => q
  | _ => 0

/-- Mutable state of the `_ID3._determine_duration` frame walk. -/
structure MpState where
  frames : Nat
  bitrateAccu : Nat
  frameSizeAccu : Nat
  audioOffset : Nat
  lastBitrates : List Nat
  firstMpegId : Option Nat
  t : Tag

/-- The `while True` loop of `_ID3._determine_duration`.  `body` is the
byte source from `_bytepos_after_id3v2` on; `fileOffset` is that start
position; `filesize` is used by the `seek(-128, SEEK_END)` of the
estimation branch.  Field updates in the source are direct attribute
assignments, embedded as record updates.  Fuel is at least
`body.length + 1`, which the strictly advancing position never
exhausts. -/
def mp3Walk (body : List Nat) (filesize : Int) (fileOffset : Nat) :
    Nat → Nat → MpState → Except PErr Tag
  | 0, _, st => Except.ok st.t
  | fuel + 1, pos, st =>
    let header := rd body pos 4
    if header.length < 4 then
      let t1 := if st.frames ≠ 0 then
          let br : Rat := (st.bitrateAccu : Rat) / st.frames
          { st.t with bitrate := some (TagValue.flt br) }
        else st.t
      if truthyOpt t1.samplerate then
        let dur : Rat := (st.frames * 1152 : Rat) / rawNum t1.samplerate
        Except.ok { t1 with duration := some (TagValue.flt dur) }
      else Except.ok t1
    else
      let b1 := header.getD 1 0
      let b2 := header.getD 2 0
      let b3 := header.getD 3 0
      let brId := (b2 >>> 4) &&& 15
      let srId := (b2 >>> 2) &&& 3
      let mpegId := (b1 >>> 3) &&& 3
      let layerId := (b1 >>> 1) &&& 3
      let channelMode := (b3 >>> 6) &&& 3
      if !bytesLt [255, 224] (header.take 2) ∨
          (st.firstMpegId ≠ none ∧ st.firstMpegId ≠ some mpegId) ∨
          brId > 14 ∨ brId = 0 ∨ srId = 3 ∨ layerId = 0 ∨ mpegId = 1 then
        let idx := match (header.drop 1).findIdx? (· = 255) with
          | some i => 1 + i
          | none => header.length
        mp3Walk body filesize fileOffset fuel (pos + max idx 1) st
      else
        let firstMpegId := if st.firstMpegId = none then some mpegId
          else st.firstMpegId
        let channels := channelsPerMode.getD channelMode 0
        let frameBitrate := mp3FrameBitrate b1 b2
        let samplerate := mp3FrameSamplerate b1 b2
        let t :=
          { st.t with channels := some (TagValue.int channels),
                      samplerate := some (TagValue.int samplerate) }
        let frameLength := mp3FrameLength b1 b2
        let xing : Option (Except PErr Tag) :=
          if st.frames = 0 then
            let frameContent := rd body pos frameLength
            match findSub frameContent [88, 105, 110, 103] with
            | some off =>
              match parseXing body (pos + off) with
              | Except.error e => some (Except.error e)
              | Except.ok fb =>
                if fb.1 > 0 ∧ fb.2 > 0 then
                  let spf : Nat := xingSamplesPerFrame mpegId
                  let dur : Rat := (fb.1 * spf : Int) / (samplerate : Rat)
                  let br : Rat := (fb.2 : Rat) * 8 / dur / 1000
                  some (Except.ok
                    { t with duration := some (TagValue.flt dur),
                             bitrate := some (TagValue.flt br) })
                else none
            | none => none
          else none
        match xing with
        | some r => r
        | none =>
          let frames := st.frames + 1
          let bitrateAccu := st.bitrateAccu + frameBitrate
          let audioOffset := if frames = 1 then fileOffset + pos
            else st.audioOffset
          let lastBitrates := if frames ≤ 5 then
              (if frameBitrate ∈ st.lastBitrates then st.lastBitrates
               else st.lastBitrates ++ [frameBitrate])
            else st.lastBitrates
          let frameSizeAccu := st.frameSizeAccu + frameLength
          let isCbr := frames = 5 ∧ lastBitrates.length = 1
          if frames = maxEstimationFrames ∨ isCbr then
            if filesize - 128 < 0 then Except.error PErr.parseFail
            else
              let audioStreamSize : Int := (filesize - 128) - audioOffset
              let estFrameCount : Rat :=
                (audioStreamSize : Rat) / ((frameSizeAccu : Rat) / frames)
              let samples : Rat := estFrameCount * 1152
              Except.ok
                { t with
                  duration := some (TagValue.flt (samples / samplerate)),
                  bitrate := some (TagValue.flt ((bitrateAccu : Rat) / frames)) }
          else
            let pos2 := if frameLength > 1 then pos + frameLength else pos
            mp3Walk body filesize fileOffset fuel pos2
              { frames := frames, bitrateAccu := bitrateAccu,
                frameSizeAccu := frameSizeAccu, audioOffset := audioOffset,
                lastBitrates := lastBitrates, firstMpegId := firstMpegId,
                t := t }

/-- `_ID3._determine_duration`.  `byteposOpt = none` models
`_bytepos_after_id3v2 == -1` (tags not parsed yet), in which case the
ID3v2 header is parsed first. -/
def id3DetermineDuration (bs : List Nat) (t : Tag)
    (byteposOpt : Option Nat) : Except PErr Tag := do
  let bytepos ← match byteposOpt with
    | some b => Except.ok b
    | none => do
      let h ← id3ParseHeader bs 0
      Except.ok h.2.1
  let body := bs.drop bytepos
  mp3Walk body t.filesize bytepos (body.length + 1) 0
    { frames := 0, bitrateAccu := 0, frameSizeAccu := 0, audioOffset := 0,
      lastBitrates := [], firstMpegId := none, t := t }

/-- `TinyTag._load` specialised to `_ID3`. -/
def id3Load (ctx : Ctx) (bs : List Nat) (t : Tag) : Except PErr Tag := do
  if ctx.parseTags then do
    let r ← id3ParseTag ctx bs 0 t
    if ctx.parseDuration then id3DetermineDuration bs r.2.1 (some r.2.2)
    else Except.ok r.2.1
  else if ctx.parseDuration then id3DetermineDuration bs t none
  else Except.ok t


/-- Projections of a parse result (used to state concrete evaluations). -/
def resDuration (r : Except PErr Tag) : Option TagValue :=
  match r with
  | Except.ok t => t.duration
  | Except.error _ => none

def resBitrate (r : Except PErr Tag) : Option TagValue :=
  match r with
  | Except.ok t => t.bitrate
  | Except.error _ => none

/-- A 20-byte MPEG stream whose first (and only) frame header is MPEG-2
Layer II (`FF F5 80 00`: bitrate index 8, sample rate 22050, stereo) and
contains a Xing header with frame count 100 and byte count 10000. -/
def mp3XingLayer2File : List Nat :=
  [255, 245, 128, 0, 88, 105, 110, 103, 0, 0, 0, 3, 0, 0, 0, 100, 0, 0,
   39, 16]

/-- The same stream with an MPEG-1 Layer III header (`FF FB 90 00`:
bitrate index 9, sample rate 44100). -/
def mp3XingLayer3File : List Nat :=
  [255, 251, 144, 0, 88, 105, 110, 103, 0, 0, 0, 3, 0, 0, 0, 100, 0, 0,
   39, 16]

/-- An ID3v2.3 tag holding two APIC frames, both with picture type 3
(front cover): encoding 0, empty MIME string, empty description, and a
one-byte payload (171 resp. 172). -/
def id3TwoApicFile : List Nat :=
  [73, 68, 51, 3, 0, 0, 0, 0, 0, 30,
   65, 80, 73, 67, 0, 0, 0, 5, 0, 0, 0, 0, 3, 0, 171,
   65, 80, 73, 67, 0, 0, 0, 5, 0, 0, 0, 0, 3, 0, 172]


instance {e a : Type} [DecidableEq e] [DecidableEq a] :
    DecidableEq (Except e a) := fun x y =>
  match x, y with
  | Except.ok v, Except.ok w =>
    if h : v = w then isTrue (h ▸ rfl)
    else isFalse (fun hc => h (by injection hc))
  | Except.ok _, Except.error _ => isFalse (fun hc => Except.noConfusion hc)
  | Except.error _, Except.ok _ => isFalse (fun hc => Except.noConfusion hc)
  | Except.error v, Except.error w =>
    if h : v = w then isTrue (h ▸ rfl)
    else isFalse (fun hc => h (by injection hc))


/-! ## RIFF WAVE parser (`class _Wave`) -/

def riffMapping : List (List Nat × String) :=
  [([73, 78, 65, 77], "title"),
   ([84, 73, 84, 76], "title"),
   ([73, 80, 82, 68], "album"),
   ([73, 65, 82, 84], "artist"),
   ([73, 66, 80, 77], "extra.bpm"),
   ([73, 67, 77, 84], "comment"),
   ([73, 77, 85, 83], "composer"),
   ([73, 67, 79, 80], "extra.copyright"),
   ([73, 67, 82, 68], "year"),
   ([73, 71, 78, 82], "genre"),
   ([73, 76, 78, 71], "extra.language"),
   ([73, 83, 82, 67], "extra.isrc"),
   ([73, 80, 85, 66], "extra.publisher"),
   ([73, 80, 82, 84], "track"),
   ([73, 84, 82, 75], "track"),
   ([84, 82, 67, 75], "track"),
   ([73, 66, 83, 85], "extra.url"),
   ([89, 69, 65, 82], "year"),
   ([73, 87, 82, 73], "extra.lyricist"),
   ([73, 69, 78, 67], "extra.encoded_by"),
   ([73, 77, 69, 68], "extra.media")]

/-- The context a parser installs on a freshly constructed sub-parser
(`id3 = _ID3(); id3._load(tags=True, duration=False, image=...)`): the
encoding override is not inherited. -/
def delegCtx (ctx : Ctx) : Ctx :=
  { codecs := ctx.codecs, defaultEnc := none, parseTags := true,
    parseDuration := false, loadImage := ctx.loadImage }

/-- The `LIST`/`INFO` sub-loop of `_Wave._parse_tag`, over the in-memory
chunk bytes. -/
def waveInfoLoop (ctx : Ctx) (sub : List Nat) :
    Nat → Nat → Tag → Except PErr Tag
  | 0, _, t => Except.ok t
  | fuel + 1, pos, t =>
    let field := rd sub pos 4
    if field.length ≠ 4 then Except.ok t
    else do
      let lenB ← rdE sub (pos + 4) 4
      let dataLength0 := leVal lenB
      let dataLength := dataLength0 + dataLength0 % 2
      let chunk := rd sub (pos + 8) dataLength
      let data := chunk.takeWhile (· ≠ 0)
      let t ←
        match alGet riffMapping field with
        | some fieldname =>
          let value := ctx.codecs.utf8 data
          if fieldname = "track" then
            if isDecimalStr value then
              Except.ok (t.setField fieldname (TagValue.int (decVal value))
                true)
            else Except.ok t
          else Except.ok (t.setField fieldname (TagValue.str value) true)
        | none => Except.ok t
      waveInfoLoop ctx sub fuel (pos + 8 + chunk.length) t

/-- The chunk loop of `_Wave._parse_tag`.  `unpack('HHI', ...)` uses
native byte order; little-endian (the platforms the library targets) is
embedded. -/
def waveChunkLoop (ctx : Ctx) (bs : List Nat) :
    Nat → Nat → Tag → Except PErr Tag
  | 0, _, t => Except.ok t
  | fuel + 1, pos, t =>
    let chunkHeader := rd bs pos 8
    if chunkHeader.length ≠ 8 then Except.ok t
    else
      let subchunkid := chunkHeader.take 4
      let size0 := leVal (chunkHeader.drop 4)
      let subchunksize := size0 + size0 % 2
      let pos := pos + 8
      if subchunkid = [102, 109, 116, 32] ∧ ctx.parseDuration then do
        let fmt1 ← rdE bs pos 8
        let channels := leVal ((fmt1.drop 2).take 2)
        let samplerate := leVal (fmt1.drop 4)
        let fmt2 ← rdE bs (pos + 8) 8
        let bitdepth0 := leVal (fmt2.drop 6)
        -- zero bit depth (GSM 6.10 etc.) is clamped to 1 to avoid a
        -- divide-by-zero in the duration math
        let bitdepth := if bitdepth0 = 0 then 1 else bitdepth0
        let t :=
          { t with
            bitrate := some (TagValue.flt
              ((samplerate * channels * bitdepth : Nat) / (1000 : Rat))),
            channels := some (TagValue.int channels),
            samplerate := some (TagValue.int samplerate),
            bitdepth := some (TagValue.int bitdepth) }
        let remainingSize : Int := (subchunksize : Int) - 16
        let pos2 := if remainingSize > 0 then
            ((pos + 16 : Int) + remainingSize).toNat
          else pos + 16
        waveChunkLoop ctx bs fuel pos2 t
      else if subchunkid = [100, 97, 116, 97] ∧ ctx.parseDuration then do
        let t ←
          if t.channels ≠ none ∧ t.samplerate ≠ none ∧ t.bitdepth ≠ none then
            let c := rawNum t.channels
            let sr := rawNum t.samplerate
            let bd := rawNum t.bitdepth
            if c = 0 ∨ sr = 0 ∨ bd = 0 then Except.error PErr.parseFail
            else
              Except.ok { t with duration := some (TagValue.flt
                ((subchunksize : Rat) / c / sr / (bd / 8))) }
          else Except.ok t
        waveChunkLoop ctx bs fuel (pos + subchunksize) t
      else if subchunkid = [76, 73, 83, 84] ∧ ctx.parseTags then
        let isInfo := rd bs pos 4
        if isInfo ≠ [73, 78, 70, 79] then do
          let pos2 ← seekRel (pos + isInfo.length)
            ((subchunksize : Int) - 4)
          waveChunkLoop ctx bs fuel pos2 t
        else do
          let subBytes := rd bs (pos + 4) (subchunksize - 4)
          let t ← waveInfoLoop ctx subBytes (subBytes.length + 1) 0 t
          waveChunkLoop ctx bs fuel (pos + 4 + subBytes.length) t
      else if (subchunkid = [105, 100, 51, 32] ∨
          subchunkid = [73, 68, 51, 32]) ∧ ctx.parseTags then do
        let r ← id3ParseTag (delegCtx ctx) bs pos emptyTag
        waveChunkLoop ctx bs fuel r.1 (t.update r.2.1)
      else
        waveChunkLoop ctx bs fuel (pos + subchunksize) t

/-- `_Wave._parse_tag`. -/
def waveParseTag (ctx : Ctx) (bs : List Nat) (t : Tag) :
    Except PErr Tag := do
  let hdr ← rdE bs 0 12
  if hdr.take 4 ≠ [82, 73, 70, 70] ∨ hdr.drop 8 ≠ [87, 65, 86, 69] then
    Except.error PErr.parseFail
  else
    let t := if ctx.parseDuration then
        { t with bitdepth := some (TagValue.int 16) }
      else t
    waveChunkLoop ctx bs (bs.length + 1) 12 t

/-- `TinyTag._load` specialised to `_Wave` (`_determine_duration` re-runs
`_parse_tag` only when tags were not parsed). -/
def waveLoad (ctx : Ctx) (bs : List Nat) (t : Tag) : Except PErr Tag :=
  if ctx.parseTags ∨ ctx.parseDuration then waveParseTag ctx bs t
  else Except.ok t

/-! ## AIFF parser (`class _Aiff`) -/

def aiffMapping : List (List Nat × String) :=
  [([78, 65, 77, 69], "title"),
   ([65, 85, 84, 72], "artist"),
   ([65, 78, 78, 79], "comment"),
   ([40, 99, 41, 32], "extra.copyright")]

/-- `int(mantissa * 2 ** (exponent - 0x3FFF - 63))` for the 80-bit
extended-precision sample rate, computed exactly (`0x3FFF + 63 = 16446`;
for a negative power the source multiplies by a Python float and
truncates — the exact floor is embedded). -/
def extSampleRate (exponent mantissa : Nat) : Nat :=
  if 16446 ≤ exponent then mantissa * 2 ^ (exponent - 16446)
  else mantissa / 2 ^ (16446 - exponent)

/-- The literal value of `2 ^ 1024` (kept as a numeral so that it
evaluates without large-exponent reduction). -/
def floatMaxBound : Nat :=
  179769313486231590772930519078902473361797697894230657273430081157732675805500963132708477322407536021120113879871393357658789768814416622492847430639474124377767893424865485276302219601246094119453082952085005768838150682342462881473913110540827237163350510684586298239947245938479716304835356329624224137216

/-- Whether `samplerate * channels * bitdepth / 1000` overflows a Python
float (`OverflowError`, caught by the source).  The conversion threshold
is modelled as `2 ^ 1024`. -/
def aiffOverflow (sr : Nat) (ch bd : Int) : Bool :=
  floatMaxBound ≤ ((sr : Int) * ch * bd).natAbs / 1000

/-- The chunk loop of `_Aiff._parse_tag`. -/
def aiffChunkLoop (ctx : Ctx) (bs : List Nat) :
    Nat → Nat → Tag → Except PErr Tag
  | 0, _, t => Except.ok t
  | fuel + 1, pos, t =>
    let chunkHeader := rd bs pos 8
    if chunkHeader.length ≠ 8 then Except.ok t
    else
      let subChunkId := chunkHeader.take 4
      let size0 := beVal (chunkHeader.drop 4)
      let subChunkSize := size0 + size0 % 2
      let pos := pos + 8
      match alGet aiffMapping subChunkId with
      | some fieldname =>
        if ctx.parseTags then
          let chunk := rd bs pos subChunkSize
          let value := unpad (ctx.codecs.utf8 chunk)
          aiffChunkLoop ctx bs fuel (pos + chunk.length)
            (t.setField fieldname (TagValue.str value) true)
        else
          aiffChunkLoop ctx bs fuel (pos + subChunkSize) t
      | none =>
        if subChunkId = [67, 79, 77, 77] ∧ ctx.parseDuration then do
          let comm1 ← rdE bs pos 8
          let channels := toSigned 16 (beVal (comm1.take 2))
          let numFrames := beVal ((comm1.drop 2).take 4)
          let bitdepth := toSigned 16 (beVal (comm1.drop 6))
          let t :=
            { t with channels := some (TagValue.int channels),
                     bitdepth := some (TagValue.int bitdepth) }
          let comm2 ← rdE bs (pos + 8) 10
          let exponent := beVal (comm2.take 2)
          let mantissa := beVal (comm2.drop 2)
          let samplerate := extSampleRate exponent mantissa
          let t ←
            if samplerate = 0 then Except.error PErr.parseFail
            else if aiffOverflow samplerate channels bitdepth then
              Except.ok t
            else
              let duration : Rat := (numFrames : Rat) / samplerate
              let bitrate : Rat :=
                ((samplerate : Int) * channels * bitdepth : Int) / (1000 : Rat)
              Except.ok
                { t with samplerate := some (TagValue.int samplerate),
                         duration := some (TagValue.flt duration),
                         bitrate := some (TagValue.flt bitrate) }
          let pos2 ← seekRel (pos + 18) ((subChunkSize : Int) - 18)
          aiffChunkLoop ctx bs fuel pos2 t
        else if (subChunkId = [105, 100, 51, 32] ∨
            subChunkId = [73, 68, 51, 32]) ∧ ctx.parseTags then do
          let r ← id3ParseTag (delegCtx ctx) bs pos emptyTag
          aiffChunkLoop ctx bs fuel r.1 (t.update r.2.1)
        else
          aiffChunkLoop ctx bs fuel (pos + subChunkSize) t

/-- `_Aiff._parse_tag`. -/
def aiffParseTag (ctx : Ctx) (bs : List Nat) (t : Tag) :
    Except PErr Tag := do
  let hdr ← rdE bs 0 12
  if hdr.take 4 ≠ [70, 79, 82, 77] ∨
      (hdr.drop 8 ≠ [65, 73, 70, 67] ∧ hdr.drop 8 ≠ [65, 73, 70, 70]) then
    Except.error PErr.parseFail
  else aiffChunkLoop ctx bs (bs.length + 1) 12 t

/-- `TinyTag._load` specialised to `_Aiff`. -/
def aiffLoad (ctx : Ctx) (bs : List Nat) (t : Tag) : Except PErr Tag :=
  if ctx.parseTags ∨ ctx.parseDuration then aiffParseTag ctx bs t
  else Except.ok t

/-! ## MP4 parser (`class _MP4`) -/

/-- `_MP4._Parser._CUSTOM_FIELD_NAME_MAPPING`. -/
def mp4CustomMapping : List (String × String) :=
  [("artists", "artist"),
   ("conductor", "extra.conductor"),
   ("discsubtitle", "extra.set_subtitle"),
   ("initialkey", "extra.initial_key"),
   ("isrc", "extra.isrc"),
   ("language", "extra.language"),
   ("lyricist", "extra.lyricist"),
   ("media", "extra.media"),
   ("website", "extra.url"),
   ("originaldate", "extra.original_date"),
   ("originalyear", "extra.original_year"),
   ("license", "extra.license"),
   ("barcode", "extra.barcode"),
   ("catalognumber", "extra.catalog_number")]

/-- `_MP4._Parser._unpack_integer`: decimal rendering of the value, or
`"-1"` when the width is not 1, 2, 4 or 8 bytes. -/
def mp4UnpackInteger (signed : Bool) (value : List Nat) : String :=
  let w := value.length
  if w = 1 ∨ w = 2 ∨ w = 4 ∨ w = 8 then
    if signed then toString (toSigned (w * 8) (beVal value))
    else toString (beVal value)
  else toString (-1 : Int)

/-- The leaf parsers of the MP4 atom trees. -/
inductive MpLeaf where
  | dataAtom (fieldname : String)
  | numberAtom (f1 f2 : String)
  | genreAtom
  | customAtom
  | mp4aAtom
  | alacAtom
  | mvhdAtom
deriving DecidableEq

/-- A node of `_META_DATA_TREE` / `_AUDIO_DATA_TREE`. -/
inductive MpNode where
  | sub (children : List (List Nat × MpNode))
  | leaf (l : MpLeaf)

/-- `_MP4._Parser._make_data_atom_parser`'s `_parse_data_atom`: decodes
the data atom payload according to its type code; a type-3 payload uses
Shift-JIS (`'s/jis'` resolves to the `shift_jis` codec through Python's
alias normalisation).  Unknown type codes yield no field. -/
def mp4ParseDataAtom (ctx : Ctx) (fieldname : String) (dataAtom : List Nat) :
    Except PErr (List (String × TagValue)) := do
  let tb ← rdE dataAtom 0 4
  let dataType := beVal tb
  let content := dataAtom.drop 8
  if dataType = 1 then
    Except.ok [(fieldname, TagValue.str (ctx.codecs.utf8 content))]
  else if dataType = 2 then
    Except.ok [(fieldname, TagValue.str (ctx.codecs.utf16 content))]
  else if dataType = 3 then
    Except.ok [(fieldname, TagValue.str (ctx.codecs.sjis content))]
  else if dataType = 13 then
    Except.ok [(fieldname, TagValue.img
      { name := "front_cover", data := content,
        mime_type := some "image/jpeg", description := none })]
  else if dataType = 14 then
    Except.ok [(fieldname, TagValue.img
      { name := "front_cover", data := content,
        mime_type := some "image/png", description := none })]
  else if dataType = 21 ∨ dataType = 65 ∨ dataType = 66 ∨ dataType = 67 ∨
      dataType = 74 then
    Except.ok [(fieldname, TagValue.str (mp4UnpackInteger true content))]
  else if dataType = 22 ∨ dataType = 75 ∨ dataType = 76 ∨ dataType = 77 ∨
      dataType = 78 then
    Except.ok [(fieldname, TagValue.str (mp4UnpackInteger false content))]
  else Except.ok []

/-- `_read_extended_descriptor`: up to four one-byte reads, stopping
after the first byte that is not `0x80`; returns the bytes consumed. -/
def mp4ExtDescLen (bs : List Nat) (pos : Nat) : Nat :=
  match rd bs pos 4 with
  | b0 :: b1 :: b2 :: _ :: _ =>
    if b0 ≠ 128 then 1 else if b1 ≠ 128 then 2 else if b2 ≠ 128 then 3
    else 4
  | l =>
    match l with
    | [] => 0
    | b0 :: rest =>
      if b0 ≠ 128 then 1
      else match rest with
        | [] => 1
        | b1 :: rest2 =>
          if b1 ≠ 128 then 2
          else match rest2 with
            | [] => 2
            | b2 :: _ => if b2 ≠ 128 then 3 else 3

/-- `_parse_audio_sample_entry_mp4a`. -/
def mp4ParseMp4a (data : List Nat) :
    Except PErr (List (String × TagValue)) := do
  let chB ← rdE data 16 2
  let channels := beVal chB
  let srB ← rdE data 22 4
  let sr := beVal srB
  let esB ← rdE data 28 4
  let esdsAtomSize := beVal esB
  let esds := (data.drop 36).take esdsAtomSize
  let pos := 5
  let pos := pos + mp4ExtDescLen esds pos
  let pos := pos + 4
  let pos := pos + mp4ExtDescLen esds pos
  let pos := pos + 9
  let brB ← rdE esds pos 4
  let avgBr : Rat := (beVal brB : Rat) / 1000
  Except.ok [("channels", TagValue.int channels),
    ("samplerate", TagValue.int sr), ("bitrate", TagValue.flt avgBr)]

/-- `_parse_audio_sample_entry_alac`. -/
def mp4ParseAlac (data : List Nat) :
    Except PErr (List (String × TagValue)) := do
  let szB ← rdE data 28 4
  let alac := (data.drop 36).take (beVal szB)
  let bdB ← rdE alac 9 1
  let bitdepth := toSigned 8 (beVal bdB)
  let chB ← rdE alac 13 1
  let channels := toSigned 8 (beVal chB)
  let brB ← rdE alac 20 4
  let avgBr : Rat := (beVal brB : Rat) / 1000
  let srB ← rdE alac 24 4
  let sr := beVal srB
  Except.ok [("channels", TagValue.int channels),
    ("samplerate", TagValue.int sr), ("bitrate", TagValue.flt avgBr),
    ("bitdepth", TagValue.int bitdepth)]

/-- `_parse_mvhd` (raises `ZeroDivisionError` when the time scale is
zero, uncaught by the source). -/
def mp4ParseMvhd (data : List Nat) :
    Except PErr (List (String × TagValue)) := do
  let vB ← rdE data 0 1
  let version := toSigned 8 (beVal vB)
  let r ←
    if version = 0 then do
      let tsB ← rdE data 12 4
      let duB ← rdE data 16 4
      Except.ok ((beVal tsB : Nat), (beVal duB : Int))
    else do
      let tsB ← rdE data 20 4
      let duB ← rdE data 24 8
      Except.ok ((beVal tsB : Nat), toSigned 64 (beVal duB))
  if r.1 = 0 then Except.error PErr.parseFail
  else Except.ok [("duration", TagValue.flt ((r.2 : Rat) / (r.1 : Nat)))]

/-- `_parse_id3v1_genre`: the index is offset by −1, and the bounds
check admits −1, which Python's negative indexing maps to the LAST genre
of the table. -/
def mp4ParseGenre (data : List Nat) :
    Except PErr (List (String × TagValue)) := do
  let gB ←
    if (data.drop 8).length = 2 then Except.ok (data.drop 8)
    else Except.error PErr.parseFail
  let idx : Int := (beVal gB : Int) - 1
  if idx < id3v1Genres.length then
    let g := if idx < 0 then (id3v1Genres.getLast?).getD ""
      else (id3v1Genres.get? idx.toNat).getD ""
    Except.ok [("genre", TagValue.str g)]
  else Except.ok []

/-- `_make_number_parser`: two big-endian 16-bit numbers at offsets
10 and 12 (`unpack('>3H', data[8:14])`, the first number unused). -/
def mp4ParseNumbers (f1 f2 : String) (data : List Nat) :
    Except PErr (List (String × TagValue)) := do
  let nB ←
    if ((data.drop 8).take 6).length = 6 then
      Except.ok ((data.drop 8).take 6)
    else Except.error PErr.parseFail
  Except.ok [(f1, TagValue.int (beVal ((nB.drop 2).take 2))),
    (f2, TagValue.int (beVal (nB.drop 4)))]

/-- The inner atom loop of `_parse_custom_field`; `atom_size` is a
Python `int` and may be negative, when `fh.read` reads to the end and
`fh.seek` may fail. -/
def mp4CustomLoop (ctx : Ctx) (data : List Nat) :
    Nat → Nat → Option String → List Nat →
    Except PErr (Option String × List Nat)
  | 0, _, fieldName, dataAtom => Except.ok (fieldName, dataAtom)
  | fuel + 1, pos, fieldName, dataAtom =>
    let ah := rd data pos 8
    if ah.length ≠ 8 then Except.ok (fieldName, dataAtom)
    else do
      let atomSize : Int := (beVal (ah.take 4) : Int) - 8
      let atomType := ah.drop 4
      let pos := pos + 8
      let readLen := if atomSize < 0 then data.length - pos
        else atomSize.toNat
      if atomType = [110, 97, 109, 101] then
        let atomValue := (rd data pos readLen).drop 4
        let fn := lowerStr (ctx.codecs.utf8 atomValue)
        let fn := (alGet mp4CustomMapping fn).getD (extraPfx ++ fn)
        mp4CustomLoop ctx data fuel (pos + (rd data pos readLen).length)
          (some fn) dataAtom
      else if atomType = [100, 97, 116, 97] then
        mp4CustomLoop ctx data fuel (pos + (rd data pos readLen).length)
          fieldName (rd data pos readLen)
      else do
        let pos2 ← seekRel pos atomSize
        mp4CustomLoop ctx data fuel pos2 fieldName dataAtom

/-- `_parse_custom_field`. -/
def mp4ParseCustomField (ctx : Ctx) (data : List Nat) :
    Except PErr (List (String × TagValue)) := do
  let r ← mp4CustomLoop ctx data (data.length + 1) 0 none []
  match r.1 with
  | none => Except.ok []
  | some fieldName =>
    if r.2.length < 8 then Except.ok []
    else mp4ParseDataAtom ctx fieldName r.2

/-- Dispatch for the tree leaves. -/
def mp4RunLeaf (ctx : Ctx) (l : MpLeaf) (data : List Nat) :
    Except PErr (List (String × TagValue)) :=
  match l with
  | MpLeaf.dataAtom f => mp4ParseDataAtom ctx f data
  | MpLeaf.numberAtom f1 f2 => mp4ParseNumbers f1 f2 data
  | MpLeaf.genreAtom => mp4ParseGenre data
  | MpLeaf.customAtom => mp4ParseCustomField ctx data
  | MpLeaf.mp4aAtom => mp4ParseMp4a data
  | MpLeaf.alacAtom => mp4ParseAlac data
  | MpLeaf.mvhdAtom => mp4ParseMvhd data

/-- The `ilst` children of `_META_DATA_TREE` (each `data` leaf wrapped
as in the source; `----` maps directly to `_parse_custom_field`). -/
def mp4IlstChildren : List (List Nat × MpNode) :=
  let d := fun (f : String) =>
    MpNode.sub [([100, 97, 116, 97], MpNode.leaf (MpLeaf.dataAtom f))]
  [([169, 65, 82, 84], d "artist"),
   ([169, 97, 108, 98], d "album"),
   ([169, 99, 109, 116], d "comment"),
   ([169, 99, 111, 110], d "extra.conductor"),
   ([169, 100, 97, 121], d "year"),
   ([169, 100, 101, 115], d "extra.description"),
   ([169, 100, 105, 114], d "extra.director"),
   ([169, 103, 101, 110], d "genre"),
   ([169, 108, 121, 114], d "extra.lyrics"),
   ([169, 109, 118, 110], d "movement"),
   ([169, 110, 97, 109], d "title"),
   ([169, 112, 117, 98], d "extra.publisher"),
   ([169, 116, 111, 111], d "extra.encoded_by"),
   ([169, 119, 114, 116], d "composer"),
   ([97, 65, 82, 84], d "albumartist"),
   ([99, 112, 114, 116], d "extra.copyright"),
   ([100, 101, 115, 99], d "extra.description"),
   ([100, 105, 115, 107], MpNode.sub [([100, 97, 116, 97],
     MpNode.leaf (MpLeaf.numberAtom "disc" "disc_total"))]),
   ([103, 110, 114, 101], MpNode.sub [([100, 97, 116, 97],
     MpNode.leaf MpLeaf.genreAtom)]),
   ([116, 114, 107, 110], MpNode.sub [([100, 97, 116, 97],
     MpNode.leaf (MpLeaf.numberAtom "track" "track_total"))]),
   ([116, 109, 112, 111], d "extra.bpm"),
   ([99, 111, 118, 114], d "images.front_cover"),
   ([45, 45, 45, 45], MpNode.leaf MpLeaf.customAtom)]

/-- `_META_DATA_TREE`. -/
def mp4MetaChildren : List (List Nat × MpNode) :=
  [([109, 111, 111, 118], MpNode.sub
    [([117, 100, 116, 97], MpNode.sub
      [([109, 101, 116, 97], MpNode.sub
        [([105, 108, 115, 116], MpNode.sub mp4IlstChildren)])])])]

/-- `_AUDIO_DATA_TREE`. -/
def mp4AudioChildren : List (List Nat × MpNode) :=
  [([109, 111, 111, 118], MpNode.sub
    [([109, 118, 104, 100], MpNode.leaf MpLeaf.mvhdAtom),
     ([116, 114, 97, 107], MpNode.sub
      [([109, 100, 105, 97], MpNode.sub
        [([109, 105, 110, 102], MpNode.sub
          [([115, 116, 98, 108], MpNode.sub
            [([115, 116, 115, 100], MpNode.sub
              [([109, 112, 52, 97], MpNode.leaf MpLeaf.mp4aAtom),
               ([97, 108, 97, 99], MpNode.leaf MpLeaf.alacAtom)])])])])])])]

/-- Applies one leaf result to the tag (`for fieldname, value in
sub_path(...).items()`): an `images.`-prefixed field is stored through
`Images._set_field` only when image loading is on (a non-`Image` value
appended by the source in that case — possible only for a malformed
`covr` atom with a text data type — is not representable in the typed
image lists and leaves the slot unchanged); other non-empty names go
through `_set_field`. -/
def mp4ApplyFields (ctx : Ctx) (fields : List (String × TagValue))
    (t : Tag) : Tag :=
  fields.foldl (fun acc p =>
    if strStartsWith p.1 "images." then
      if ctx.loadImage then
        match p.2 with
        | TagValue.img i =>
          { acc with images := acc.images.setField (strDrop p.1 7) i }
        | _ => acc
      else acc
    else if p.1 ≠ "" then acc.setField p.1 p.2 true
    else acc) t

/-- `_MP4._traverse_atoms`: returns the updated tag and the final read
position (the caller resumes from where the subtree walk stopped). -/
def mp4Traverse (ctx : Ctx) (bs : List Nat) :
    Nat → Nat → Option Nat → List (List Nat × MpNode) → Tag →
    Except PErr (Tag × Nat)
  | 0, pos, _, _, t => Except.ok (t, pos)
  | fuel + 1, pos, stopPos, path, t =>
    let ah := rd bs pos 8
    if ah.length ≠ 8 then Except.ok (t, pos + ah.length)
    else do
      let atomSize : Int := (beVal (ah.take 4) : Int) - 8
      let atomType := ah.drop 4
      let pos := pos + 8
      if atomSize ≤ 0 then mp4Traverse ctx bs fuel pos stopPos path t
      else do
        let pos := if atomType = [109, 101, 116, 97] ∨
            atomType = [115, 116, 115, 100] then pos + 4 else pos
        let pos := if atomType = [115, 116, 115, 100] then pos + 4
          else pos
        let r ←
          match alGet path atomType with
          | some (MpNode.sub children) => do
            let atomEndPos := pos + atomSize.toNat
            mp4Traverse ctx bs fuel pos (some atomEndPos) children t
          | some (MpNode.leaf l) => do
            let data := rd bs pos atomSize.toNat
            let fields ← mp4RunLeaf ctx l data
            Except.ok (mp4ApplyFields ctx fields t, pos + data.length)
          | none => Except.ok (t, pos + atomSize.toNat)
        match stopPos with
        | some sp =>
          if r.2 ≥ sp then Except.ok r
          else mp4Traverse ctx bs fuel r.2 stopPos path r.1
        | none => mp4Traverse ctx bs fuel r.2 stopPos path r.1

/-- `_MP4._parse_tag`. -/
def mp4ParseTag (ctx : Ctx) (bs : List Nat) (t : Tag) :
    Except PErr Tag :=
  (mp4Traverse ctx bs (bs.length + 1) 0 none mp4MetaChildren t).map (·.1)

/-- `_MP4._determine_duration`. -/
def mp4DetermineDuration (ctx : Ctx) (bs : List Nat) (t : Tag) :
    Except PErr Tag :=
  (mp4Traverse ctx bs (bs.length + 1) 0 none mp4AudioChildren t).map (·.1)

/-- `TinyTag._load` specialised to `_MP4`. -/
def mp4Load (ctx : Ctx) (bs : List Nat) (t : Tag) :
    Except PErr Tag := do
  let t ← if ctx.parseTags then mp4ParseTag ctx bs t else Except.ok t
  if ctx.parseDuration then mp4DetermineDuration ctx bs t
  else Except.ok t

/-! ## Vorbis comments and the FLAC parser (`_Ogg._parse_vorbis_comment`,
`class _Flac`) -/

/-- `_Ogg._VORBIS_MAPPING` in source order. -/
def vorbisMapping : List (String × String) :=
  [("album", "album"),
   ("albumartist", "albumartist"),
   ("title", "title"),
   ("artist", "artist"),
   ("artists", "artist"),
   ("author", "artist"),
   ("date", "year"),
   ("tracknumber", "track"),
   ("tracktotal", "track_total"),
   ("totaltracks", "track_total"),
   ("discnumber", "disc"),
   ("disctotal", "disc_total"),
   ("totaldiscs", "disc_total"),
   ("genre", "genre"),
   ("description", "comment"),
   ("comment", "comment"),
   ("comments", "comment"),
   ("composer", "composer"),
   ("bpm", "extra.bpm"),
   ("copyright", "extra.copyright"),
   ("isrc", "extra.isrc"),
   ("lyrics", "extra.lyrics"),
   ("publisher", "extra.publisher"),
   ("language", "extra.language"),
   ("director", "extra.director"),
   ("website", "extra.url"),
   ("conductor", "extra.conductor"),
   ("lyricist", "extra.lyricist"),
   ("discsubtitle", "extra.set_subtitle"),
   ("setsubtitle", "extra.set_subtitle"),
   ("initialkey", "extra.initial_key"),
   ("key", "extra.initial_key"),
   ("encodedby", "extra.encoded_by"),
   ("encodersettings", "extra.encoder_settings"),
   ("media", "extra.media"),
   ("originaldate", "extra.original_date"),
   ("originalyear", "extra.original_year"),
   ("license", "extra.license"),
   ("barcode", "extra.barcode"),
   ("catalognumber", "extra.catalog_number")]

/-- Python `str.partition(c)` for an arbitrary one-character separator
(`str.split(sep, 1)` when the separator occurs). -/
def partitionCh (c : Char) (s : String) : String × Bool × String :=
  match s.data.findIdx? (· = c) with
  | some i => (⟨s.data.take i⟩, true, ⟨s.data.drop (i + 1)⟩)
  | none => (s, false, "")

/-- `_Flac._parse_image`: reads one `METADATA_BLOCK_PICTURE` record at
`pos`, returning the position after the record and the result of
`_ID3._create_tag_image`. -/
def flacParseImage (ctx : Ctx) (bs : List Nat) (pos : Nat) :
    Except PErr (Nat × (String × ImageRec)) := do
  let h ← rdE bs pos 8
  let picType := beVal (h.take 4)
  let mimeLen := beVal (h.drop 4)
  let mimeBytes := rd bs (pos + 8) mimeLen
  let mime := ctx.codecs.utf8 mimeBytes
  let pos := pos + 8 + mimeBytes.length
  let dl ← rdE bs pos 4
  let descBytes := rd bs (pos + 4) (beVal dl)
  let description := ctx.codecs.utf8 descBytes
  let pos := pos + 4 + descBytes.length
  let ints ← rdE bs pos 20
  let picLen := beVal (ints.drop 16)
  let dataBytes := rd bs (pos + 20) picLen
  let r ← createTagImage dataBytes picType (some mime) (some description)
  Except.ok (pos + 20 + dataBytes.length, r)

/-- The element loop of `_Ogg._parse_vorbis_comment` (`for _i in
range(elements)`); `ctx.loadImage` is the `_load_image` of the tag the
method runs on (`False` for the fresh sub-tag used by `_Flac`). -/
def vorbisCommentLoop (ctx : Ctx) (bs : List Nat) :
    Nat → Nat → Tag → Except PErr (Nat × Tag)
  | 0, pos, t => Except.ok (pos, t)
  | n + 1, pos, t => do
    let lb ← rdE bs pos 4
    let kv := rd bs (pos + 4) (leVal lb)
    let keyvalpair := ctx.codecs.utf8 kv
    let pos := pos + 4 + kv.length
    let p := partitionCh '=' keyvalpair
    if p.2.1 then
      let keyLowercase := lowerStr p.1
      let value := p.2.2
      if keyLowercase = "metadata_block_picture" ∧ ctx.loadImage then do
        let r ← flacParseImage ctx (ctx.codecs.b64 value) 0
        vorbisCommentLoop ctx bs n pos
          { t with images := t.images.setField r.2.1 r.2.2 }
      else
        let fieldname := (alGet vorbisMapping keyLowercase).getD
          (extraPfx ++ keyLowercase)
        if fieldname = "track" ∨ fieldname = "disc" ∨
            fieldname = "track_total" ∨ fieldname = "disc_total" then
          let step :=
            if (fieldname = "track" ∨ fieldname = "disc") ∧
                value.data.contains '/' then
              let parts := splitCh '/' value
              let v := parts.headD ""
              let total := (parts.drop 1).headD ""
              if isDecimalStr total then
                (v, t.setField (fieldname ++ "_total")
                  (TagValue.int (decVal total)) true)
              else (v, t)
            else (value, t)
          let t2 := if isDecimalStr step.1 then
              step.2.setField fieldname (TagValue.int (decVal step.1)) true
            else step.2
          vorbisCommentLoop ctx bs n pos t2
        else if (TagValue.str value).truthy then
          vorbisCommentLoop ctx bs n pos
            (t.setField fieldname (TagValue.str value) true)
        else vorbisCommentLoop ctx bs n pos t
    else vorbisCommentLoop ctx bs n pos t

/-- `_Ogg._parse_vorbis_comment`: vendor header (optional), then the
element loop; returns the position after the parsed comments. -/
def vorbisComment (ctx : Ctx) (bs : List Nat) (pos : Nat)
    (containsVendor : Bool) (t : Tag) : Except PErr (Nat × Tag) := do
  let pos ←
    if containsVendor then do
      let vl ← rdE bs pos 4
      Except.ok (pos + 4 + leVal vl)
    else Except.ok pos
  let el ← rdE bs pos 4
  vorbisCommentLoop ctx bs (leVal el) (pos + 4) t

/-- One iteration step of the `_Flac._parse_tag` block loop: `none`
means `break` (tag unchanged), `some (pos, t)` continues. -/
def flacBlockLoop (ctx : Ctx) (bs : List Nat) :
    Nat → Nat → Tag → Except PErr Tag
  | 0, _, t => Except.ok t
  | fuel + 1, pos, t =>
    let hd := rd bs pos 4
    if hd.length ≠ 4 then Except.ok t
    else do
      let b0 := hd.headD 0
      let blockType := b0 &&& 127
      let isLastBlock := b0 &&& 128
      let size := beVal (hd.drop 1)
      let pos := pos + 4
      let step ←
        if blockType = 0 ∧ ctx.parseDuration then
          let infoHeader := rd bs pos size
          if infoHeader.length < 34 then
            Except.ok (none : Option (Nat × Tag))
          else
            let samplerate := beVal ((infoHeader.drop 10).take 3) >>> 4
            let channels := ((infoHeader.getD 12 0 >>> 1) &&& 7) + 1
            let bitdepth := ((infoHeader.getD 12 0 &&& 1) <<< 4) +
              ((infoHeader.getD 13 0 &&& 240) >>> 4) + 1
            let totalSamples := beVal ((infoHeader.getD 13 0 &&& 15) ::
              ((infoHeader.drop 14).take 4))
            if samplerate = 0 then Except.error PErr.parseFail
            else
              let duration : Rat := (totalSamples : Rat) / samplerate
              let t := { t with
                samplerate := some (TagValue.int samplerate),
                channels := some (TagValue.int channels),
                bitdepth := some (TagValue.int bitdepth),
                duration := some (TagValue.flt duration) }
              let t := if duration > 0 then
                  { t with bitrate := some (TagValue.flt
                    ((t.filesize : Rat) / duration * 8 / 1000)) }
                else t
              Except.ok (some (pos + infoHeader.length, t))
        else if blockType = 4 ∧ ctx.parseTags then do
          let r ← vorbisComment { ctx with loadImage := false } bs pos true
            emptyTag
          Except.ok (some (r.1, t.update r.2))
        else if blockType = 6 ∧ ctx.loadImage then do
          let r ← flacParseImage ctx bs pos
          Except.ok (some (r.1,
            { t with images := t.images.setField r.2.1 r.2.2 }))
        else if blockType ≥ 127 then Except.ok none
        else Except.ok (some (pos + size, t))
      match step with
      | none => Except.ok t
      | some (pos2, t2) =>
        if isLastBlock ≠ 0 then Except.ok t2
        else flacBlockLoop ctx bs fuel pos2 t2

/-- `_Flac._parse_tag`: an optional leading ID3v2 tag (parsed by a fresh
`_ID3` inheriting `_parse_tags` and `_load_image`), the `fLaC` marker,
the block loop, and finally the merge of the ID3 fields. -/
def flacParseTag (ctx : Ctx) (bs : List Nat) (t : Tag) :
    Except PErr Tag := do
  let header := rd bs 0 4
  let pre ←
    if header.take 3 = [73, 68, 51] then do
      let subctx : Ctx :=
        { ctx with defaultEnc := none, parseDuration := true }
      let r ← id3ParseId3v2 subctx bs 0 emptyTag
      Except.ok ((some r.2.1 : Option Tag), r.1)
    else Except.ok ((none : Option Tag), 0)
  let header2 := rd bs pre.2 4
  if header2.take 4 ≠ [102, 76, 97, 67] then Except.error PErr.parseFail
  else do
    let t2 ← flacBlockLoop ctx bs (bs.length + 1) (pre.2 + 4) t
    match pre.1 with
    | some idt => Except.ok (t2.update idt)
    | none => Except.ok t2

/-- `TinyTag._load` specialised to `_Flac` (`_determine_duration` re-runs
`_parse_tag` only when tags were not parsed). -/
def flacLoad (ctx : Ctx) (bs : List Nat) (t : Tag) : Except PErr Tag :=
  if ctx.parseTags ∨ ctx.parseDuration then flacParseTag ctx bs t
  else Except.ok t

/-! ## OGG parser (`class _Ogg`) -/

/-- The segment loop of `_Ogg._parse_pages` for one page: folds the
lacing values, emitting a packet whenever a group is shorter than 255
bytes; returns (packets completed on this page, carried-over partial
packet, position after the page's data). -/
def oggSegsGo (bs : List Nat) :
    List Nat → Nat → Nat → List Nat → List (List Nat) →
    List (List Nat) × List Nat × Nat
  | [], pos, total, prev, acc =>
    if total ≠ 0 then
      let data := rd bs pos total
      if total % 255 = 0 then (acc, prev ++ data, pos + data.length)
      else (acc ++ [prev ++ data], [], pos + data.length)
    else (acc, prev, pos)
  | sz :: rest, pos, total, prev, acc =>
    let total := total + sz
    if total < 255 then
      let data := rd bs pos total
      oggSegsGo bs rest (pos + data.length) 0 [] (acc ++ [prev ++ data])
    else oggSegsGo bs rest pos total prev acc

/-- The handler body of `_Ogg._parse_tag` for one packet: `none` means
the final `else: break`; otherwise the updated tag with the
`check_flac_second_packet` / `check_speex_second_packet` flags. -/
def oggHandlePacket (ctx : Ctx) (packet : List Nat) (cfs css : Bool)
    (t : Tag) : Except PErr (Option (Tag × Bool × Bool)) :=
  if packet.take 7 = [1, 118, 111, 114, 98, 105, 115] then
    if ctx.parseDuration then
      let seg := rd packet 11 17
      if seg.length ≠ 17 then Except.error PErr.parseFail
      else
        let channels := seg.headD 0
        let samplerate := toSigned 32 (leVal ((seg.drop 1).take 4))
        let bitrate := toSigned 32 (leVal ((seg.drop 9).take 4))
        Except.ok (some ({ t with
          channels := some (TagValue.int channels),
          samplerate := some (TagValue.int samplerate),
          bitrate := some (TagValue.flt ((bitrate : Rat) / 1000)) },
          cfs, css))
    else Except.ok (some (t, cfs, css))
  else if packet.take 7 = [3, 118, 111, 114, 98, 105, 115] then
    if ctx.parseTags then do
      let r ← vorbisComment ctx packet 7 true t
      Except.ok (some (r.2, cfs, css))
    else Except.ok (some (t, cfs, css))
  else if packet.take 8 = [79, 112, 117, 115, 72, 101, 97, 100] then
    if ctx.parseDuration then do
      let vb ← rdE packet 8 2
      let version := vb.headD 0
      let ch := vb.getD 1 0
      if version &&& 240 = 0 then
        Except.ok (some ({ t with
          channels := some (TagValue.int ch),
          samplerate := some (TagValue.int 48000) }, cfs, css))
      else Except.ok (some (t, cfs, css))
    else Except.ok (some (t, cfs, css))
  else if packet.take 8 = [79, 112, 117, 115, 84, 97, 103, 115] then
    if ctx.parseTags then do
      let r ← vorbisComment ctx packet 8 true t
      Except.ok (some (r.2, cfs, css))
    else Except.ok (some (t, cfs, css))
  else if packet.take 5 = [127, 70, 76, 65, 67] then do
    let subctx : Ctx := { ctx with defaultEnc := none }
    let sub ← flacLoad subctx (packet.drop 9)
      { emptyTag with filesize := t.filesize }
    Except.ok (some (t.update sub, true, css))
  else if cfs then
    if ctx.parseTags then do
      let mh ← rdE packet 0 4
      let blockType := mh.headD 0 &&& 127
      if blockType = 4 then do
        let r ← vorbisComment ctx packet 4 true t
        Except.ok (some (r.2, false, css))
      else Except.ok (some (t, false, css))
    else Except.ok (some (t, false, css))
  else if packet.take 8 = [83, 112, 101, 101, 120, 32, 32, 32] then
    if ctx.parseDuration then do
      let sr ← rdE packet 36 4
      let cb ← rdE packet 48 8
      Except.ok (some ({ t with
        samplerate := some (TagValue.int (toSigned 32 (leVal sr))),
        channels := some (TagValue.int (toSigned 32 (leVal (cb.take 4)))),
        bitrate := some (TagValue.int (toSigned 32 (leVal (cb.drop 4)))) },
        cfs, true))
    else Except.ok (some (t, cfs, true))
  else if css then
    if ctx.parseTags then do
      let lb ← rdE packet 0 4
      let commentBytes := rd packet 4 (leVal lb)
      let comment := ctx.codecs.utf8 commentBytes
      let t := t.setField "comment" (TagValue.str comment) true
      let r ← vorbisComment ctx packet (4 + commentBytes.length) false t
      Except.ok (some (r.2, cfs, false))
    else Except.ok (some (t, cfs, false))
  else Except.ok none

/-- Folds `oggHandlePacket` over the packets of one page, stopping at a
`break`; the first component is `true` when the consumer stopped. -/
def oggPacketFold (ctx : Ctx) :
    List (List Nat) → Bool → Bool → Tag →
    Except PErr (Bool × Tag × Bool × Bool)
  | [], cfs, css, t => Except.ok (false, t, cfs, css)
  | p :: rest, cfs, css, t => do
    let r ← oggHandlePacket ctx p cfs css t
    match r with
    | none => Except.ok (true, t, cfs, css)
    | some (t2, c2, s2) => oggPacketFold ctx rest c2 s2 t2

/-- The page loop driving `_Ogg._parse_tag` through `_parse_pages`: for
each page the granule position updates `_max_samplenum` (before the
`OggS` validity check, as in the source), the segment table is read, and
the page's packets are handed to the `_parse_tag` dispatch. -/
def oggPageLoop (ctx : Ctx) (bs : List Nat) :
    Nat → Nat → List Nat → Bool → Bool → Int → Tag →
    Except PErr (Tag × Int)
  | 0, _, _, _, _, maxS, t => Except.ok (t, maxS)
  | fuel + 1, pos, prev, cfs, css, maxS, t =>
    let hd := rd bs pos 27
    if hd.length ≠ 27 then Except.ok (t, maxS)
    else do
      let granule := toSigned 64 (leVal ((hd.drop 6).take 8))
      let maxS := max maxS granule
      if hd.take 4 ≠ [79, 103, 103, 83] ∨ hd.getD 4 0 ≠ 0 then
        Except.error PErr.parseFail
      else do
        let segments := hd.getD 26 0
        let segsizes ← rdE bs (pos + 27) segments
        let r := oggSegsGo bs segsizes (pos + 27 + segments) 0 prev []
        let f ← oggPacketFold ctx r.1 cfs css t
        if f.1 then Except.ok (f.2.1, maxS)
        else oggPageLoop ctx bs fuel r.2.2 r.2.1 f.2.2.1 f.2.2.2 maxS f.2.1

/-- `_Ogg._parse_tag`; also returns the `_max_samplenum` accumulated
while pulling pages. -/
def oggParseTag (ctx : Ctx) (bs : List Nat) (maxS : Int) (t : Tag) :
    Except PErr (Tag × Int) :=
  oggPageLoop ctx bs (bs.length + 1) 0 [] false false maxS t

/-- The page drain of `_Ogg._determine_duration` (`for _ in
self._parse_pages(fh): pass`): only positions and the granule maximum
matter. -/
def oggDrainPages (bs : List Nat) :
    Nat → Nat → Int → Except PErr Int
  | 0, _, maxS => Except.ok maxS
  | fuel + 1, pos, maxS =>
    let hd := rd bs pos 27
    if hd.length ≠ 27 then Except.ok maxS
    else do
      let granule := toSigned 64 (leVal ((hd.drop 6).take 8))
      let maxS := max maxS granule
      if hd.take 4 ≠ [79, 103, 103, 83] ∨ hd.getD 4 0 ≠ 0 then
        Except.error PErr.parseFail
      else do
        let segments := hd.getD 26 0
        let segsizes ← rdE bs (pos + 27) segments
        let r := oggSegsGo bs segsizes (pos + 27 + segments) 0 [] []
        oggDrainPages bs fuel r.2.2 maxS

/-- `_Ogg._determine_duration` given the `_max_samplenum` and
`_tags_parsed` state left by `_load`'s tag phase. -/
def oggDetermineDuration (ctx : Ctx) (bs : List Nat) (tagsParsed : Bool)
    (maxS0 : Int) (t : Tag) : Except PErr Tag := do
  let r ←
    if !tagsParsed then oggParseTag ctx bs maxS0 t
    else Except.ok (t, maxS0)
  let t := r.1
  let maxS := r.2
  if t.duration ≠ none ∨ !truthyOpt t.samplerate then Except.ok t
  else
    let start := if t.filesize > 65536 then (t.filesize - 65536).toNat
      else 0
    let rest := bs.drop start
    if rest.length < 4 then Except.ok t
    else
      match findSub rest [79, 103, 103, 83] with
      | none => Except.ok t
      | some idx => do
        let maxS2 ← oggDrainPages bs (bs.length + 1) (start + idx) maxS
        Except.ok { t with duration := some (TagValue.flt
          ((maxS2 : Rat) / rawNum t.samplerate)) }

/-- `TinyTag._load` specialised to `_Ogg`. -/
def oggLoad (ctx : Ctx) (bs : List Nat) (t : Tag) : Except PErr Tag := do
  let r ←
    if ctx.parseTags then oggParseTag ctx bs 0 t
    else Except.ok (t, (0 : Int))
  if ctx.parseDuration then
    oggDetermineDuration ctx bs ctx.parseTags r.2 r.1
  else Except.ok r.1

/-! ## WMA parser (`class _Wma`) -/

/-- `_Wma._ASF_MAPPING` in source order. -/
def asfMapping : List (String × String) :=
  [("WM/ARTISTS", "artist"),
   ("WM/TrackNumber", "track"),
   ("WM/PartOfSet", "disc"),
   ("WM/Year", "year"),
   ("WM/AlbumArtist", "albumartist"),
   ("WM/Genre", "genre"),
   ("WM/AlbumTitle", "album"),
   ("WM/Composer", "composer"),
   ("WM/Publisher", "extra.publisher"),
   ("WM/BeatsPerMinute", "extra.bpm"),
   ("WM/InitialKey", "extra.initial_key"),
   ("WM/Lyrics", "extra.lyrics"),
   ("WM/Language", "extra.language"),
   ("WM/Director", "extra.director"),
   ("WM/AuthorURL", "extra.url"),
   ("WM/ISRC", "extra.isrc"),
   ("WM/Conductor", "extra.conductor"),
   ("WM/Writer", "extra.lyricist"),
   ("WM/SetSubTitle", "extra.set_subtitle"),
   ("WM/EncodedBy", "extra.encoded_by"),
   ("WM/EncodingSettings", "extra.encoder_settings"),
   ("WM/Media", "extra.media"),
   ("WM/OriginalReleaseTime", "extra.original_date"),
   ("WM/OriginalReleaseYear", "extra.original_year"),
   ("WM/Barcode", "extra.barcode"),
   ("WM/CatalogNo", "extra.catalog_number")]

/-- The 128-bit ASF header GUID checked at the start of the file. -/
def asfHeaderGuid : List Nat :=
  [48, 38, 178, 117, 142, 102, 207, 17, 166, 217, 0, 170, 0, 98, 206, 108]

/-- `_ASF_CONTENT_DESCRIPTION_OBJECT`. -/
def asfContentDescriptionObject : List Nat :=
  [51, 38, 178, 117, 142, 102, 207, 17, 166, 217, 0, 170, 0, 98, 206, 108]

/-- `_ASF_EXTENDED_CONTENT_DESCRIPTION_OBJECT`. -/
def asfExtendedContentDescriptionObject : List Nat :=
  [64, 164, 208, 210, 7, 227, 210, 17, 151, 240, 0, 160, 201, 94, 168, 80]

/-- `_ASF_FILE_PROPERTY_OBJECT`. -/
def asfFilePropertyObject : List Nat :=
  [161, 220, 171, 140, 71, 169, 207, 17, 142, 228, 0, 192, 12, 32, 83, 101]

/-- `_ASF_STREAM_PROPERTIES_OBJECT`. -/
def asfStreamPropertiesObject : List Nat :=
  [145, 7, 220, 183, 183, 169, 207, 17, 142, 230, 0, 192, 12, 32, 83, 101]

/-- `_STREAM_TYPE_ASF_AUDIO_MEDIA`. -/
def streamTypeAsfAudioMedia : List Nat :=
  [64, 158, 105, 248, 77, 91, 207, 17, 168, 253, 0, 128, 95, 92, 68, 43]

/-- `_Wma._decode_string` (UTF-16 with NUL padding stripped). -/
def wmaDecodeString (ctx : Ctx) (bs : List Nat) : String :=
  unpad (ctx.codecs.utf16 bs)

/-- `_Wma._decode_ext_desc`: a Unicode string for type 0, the decimal
rendering of the little-endian value for the scalar types 2–5 when the
payload has a recognised width, `None` otherwise. -/
def decodeExtDesc (ctx : Ctx) (valueType : Nat) (value : List Nat) :
    Option String :=
  if valueType = 0 then some (wmaDecodeString ctx value)
  else if 1 < valueType ∧ valueType < 6 ∧
      (value.length = 1 ∨ value.length = 2 ∨ value.length = 4 ∨
        value.length = 8) then
    some (toString (leVal value))
  else none

/-- The descriptor loop inside the extended content description object
(`for _ in range(descriptor_count)`), returning the final read position
with the updated tag. -/
def wmaExtDescLoop (ctx : Ctx) (bs : List Nat) :
    Nat → Nat → Tag → Except PErr (Nat × Tag)
  | 0, pos, t => Except.ok (pos, t)
  | count + 1, pos, t => do
    let nl ← rdE bs pos 2
    let nameLen := leVal nl
    let nameBytes := rd bs (pos + 2) nameLen
    let name := wmaDecodeString ctx nameBytes
    let pos := pos + 2 + nameBytes.length
    let tv ← rdE bs pos 4
    let valueType := leVal (tv.take 2)
    let valueLen := leVal (tv.drop 2)
    let pos := pos + 4
    if valueType = 1 then
      wmaExtDescLoop ctx bs count (pos + valueLen) t
    else
      let fieldName :=
        match alGet asfMapping name with
        | some f => f
        | none =>
          let name2 :=
            if strStartsWith name "WM/" then strDrop name 3 else name
          extraPfx ++ lowerStr name2
      let valueBytes := rd bs pos valueLen
      let fieldValue := decodeExtDesc ctx valueType valueBytes
      let t :=
        match fieldValue with
        | none => t
        | some v =>
          if fieldName = "track" ∨ fieldName = "disc" then
            if isDecimalStr v then
              t.setField fieldName (TagValue.int (decVal v)) true
            else t
          else if (TagValue.str v).truthy then
            t.setField fieldName (TagValue.str v) true
          else t
      wmaExtDescLoop ctx bs count (pos + valueBytes.length) t

/-- The five data blocks of the content description object, processed in
dict insertion order. -/
def wmaContentDescLoop (ctx : Ctx) (bs : List Nat) :
    List (String × Nat) → Nat → Tag → Nat × Tag
  | [], pos, t => (pos, t)
  | (nm, len) :: rest, pos, t =>
    let bytestring := rd bs pos len
    let value := wmaDecodeString ctx bytestring
    let t :=
      if !strStartsWith nm "_" && (TagValue.str value).truthy then
        t.setField nm (TagValue.str value) true
      else t
    wmaContentDescLoop ctx bs rest (pos + bytestring.length) t

/-- The `while True` object loop of `_Wma._parse_tag`. -/
def wmaObjLoop (ctx : Ctx) (bs : List Nat) :
    Nat → Nat → Tag → Except PErr Tag
  | 0, _, t => Except.ok t
  | fuel + 1, pos, t =>
    let objectId := rd bs pos 16
    let osd := rd bs (pos + 16) 8
    if osd = [] then Except.ok t
    else if osd.length ≠ 8 then Except.error PErr.parseFail
    else
      let objectSize := leVal osd
      if objectSize = 0 ∨ objectSize > t.filesize then Except.ok t
      else
        let pos := pos + 24
        if objectId = asfContentDescriptionObject ∧ ctx.parseTags then do
          let lens ← rdE bs pos 10
          let blocks := [("title", leVal (lens.take 2)),
            ("artist", leVal ((lens.drop 2).take 2)),
            ("extra.copyright", leVal ((lens.drop 4).take 2)),
            ("comment", leVal ((lens.drop 6).take 2)),
            ("_rating", leVal (lens.drop 8))]
          let r := wmaContentDescLoop ctx bs blocks (pos + 10) t
          wmaObjLoop ctx bs fuel r.1 r.2
        else if objectId = asfExtendedContentDescriptionObject ∧
            ctx.parseTags then do
          let dc ← rdE bs pos 2
          let r ← wmaExtDescLoop ctx bs (leVal dc) (pos + 2) t
          wmaObjLoop ctx bs fuel r.1 r.2
        else if objectId = asfFilePropertyObject ∧ ctx.parseDuration then do
          let pd ← rdE bs (pos + 40) 8
          let playDuration : Rat := (leVal pd : Rat) / 10000000
          let pr ← rdE bs (pos + 56) 8
          let preroll : Rat := (leVal pr : Rat) / 1000
          let t := { t with duration := some (TagValue.flt
            (max (playDuration - preroll) 0)) }
          wmaObjLoop ctx bs fuel (pos + 80) t
        else if objectId = asfStreamPropertiesObject ∧
            ctx.parseDuration then do
          let streamType := rd bs pos 16
          let pos := pos + 16 + 24
          let lens ← rdE bs pos 8
          let typeSpecificDataLength := leVal (lens.take 4)
          let errorCorrectionDataLength := leVal (lens.drop 4)
          let pos := pos + 8 + 6
          if streamType = streamTypeAsfAudioMedia then do
            let au ← rdE bs pos 12
            let codecIdFormatTag := leVal (au.take 2)
            let channels := leVal ((au.drop 2).take 2)
            let samplerate := leVal ((au.drop 4).take 4)
            let avgBytesPerSecond := leVal (au.drop 8)
            let t := { t with
              channels := some (TagValue.int channels),
              samplerate := some (TagValue.int samplerate),
              bitrate := some (TagValue.flt
                ((avgBytesPerSecond * 8 : Nat) / (1000 : Rat))) }
            let bps ← rdE bs (pos + 14) 2
            let bitsPerSample := leVal bps
            let t := if codecIdFormatTag = 355 then
                { t with bitdepth := some (TagValue.int bitsPerSample) }
              else t
            let pos2 ← seekRel (pos + 16)
              ((typeSpecificDataLength : Int) - 16)
            wmaObjLoop ctx bs fuel (pos2 + errorCorrectionDataLength) t
          else do
            let pos2 ← seekRel pos (typeSpecificDataLength : Int)
            wmaObjLoop ctx bs fuel (pos2 + errorCorrectionDataLength) t
        else do
          let pos2 ← seekRel pos ((objectSize : Int) - 24)
          wmaObjLoop ctx bs fuel pos2 t

/-- `_Wma._parse_tag`: header check, then the object loop. -/
def wmaParseTag (ctx : Ctx) (bs : List Nat) (t : Tag) :
    Except PErr Tag :=
  let header := rd bs 0 30
  if header.take 16 ≠ asfHeaderGuid ∨ header.drop 29 ≠ [2] then
    Except.error PErr.parseFail
  else wmaObjLoop ctx bs (bs.length + 1) 30 t

/-- `TinyTag._load` specialised to `_Wma` (`_determine_duration` re-runs
`_parse_tag` only when tags were not parsed). -/
def wmaLoad (ctx : Ctx) (bs : List Nat) (t : Tag) : Except PErr Tag :=
  if ctx.parseTags ∨ ctx.parseDuration then wmaParseTag ctx bs t
  else Except.ok t


/-- The real `tag._load(...)` of each parser class, as plugged into
`get`: builds the parsing context from the flags `get` installs on the
parser instance and dispatches on the class. -/
def loadFor (c : Codecs) (enc : Option (List Nat → String)) :
    PKind → Tag → Bool → Bool → Bool → List Nat → Except PErr Tag :=
  fun k t tags dur img bs =>
    let ctx : Ctx :=
      { codecs := c, defaultEnc := enc, parseTags := tags,
        parseDuration := dur, loadImage := img }
    match k with
    | PKind.id3 => id3Load ctx bs t
    | PKind.ogg => oggLoad ctx bs t
    | PKind.wave => waveLoad ctx bs t
    | PKind.flac => flacLoad ctx bs t
    | PKind.wma => wmaLoad ctx bs t
    | PKind.mp4 => mp4Load ctx bs t
    | PKind.aiff => aiffLoad ctx bs t

/-- `TinyTag.get` with the real parsers plugged in. -/
def get (c : Codecs) (enc : Option (List Nat → String))
    (filename : Option String) (content : List Nat)
    (tags dur img : Bool) : Except GetErr Tag :=
  getWith (loadFor c enc) filename content tags dur img

/-- Context builder mirroring the keyword flags of `get`. -/
@[reducible] def mkCtx (c : Codecs) (tags dur img : Bool) : Ctx :=
  { codecs := c, defaultEnc := none, parseTags := tags, parseDuration := dur,
    loadImage := img }

/-- The default flags of `get` (`tags=True, duration=True, image=False`)
with the concrete codec interpretation. -/
@[reducible] def stdCtx : Ctx := mkCtx dummyCodecs true true false

/-- Field projection of a parse result. -/
def resField (r : Except PErr Tag) (f : String) : Option TagValue :=
  match r with
  | Except.ok t => t.getField f
  | Except.error _ => none

/-- An AIFF file whose single `NAME` chunk holds two NUL bytes, decoding
and unpadding to the empty string. -/
def aiffEmptyNameFile : List Nat :=
  [70, 79, 82, 77, 0, 0, 0, 14, 65, 73, 70, 70,
   78, 65, 77, 69, 0, 0, 0, 2, 0, 0]

/-- An AIFF file whose single `COMM` chunk declares channels = 0xFFFF
(decoded as the signed value -1), 0 sample frames, bit depth 16, and a
valid 44100 Hz extended-precision sample rate. -/
def aiffNegChannelsFile : List Nat :=
  [70, 79, 82, 77, 0, 0, 0, 26, 65, 73, 70, 70,
   67, 79, 77, 77, 0, 0, 0, 18,
   255, 255, 0, 0, 0, 0, 0, 16, 64, 14, 172, 68, 0, 0, 0, 0, 0, 0]


/-- A canonical WAVE file: `RIFF<size>WAVE` followed by a single `fmt `
chunk of declared size 16 with symbolic payload bytes (`p14 p15` encode
the bit depth, little-endian). -/
def waveFmtFile (s0 s1 s2 s3 p0 p1 p2 p3 p4 p5 p6 p7 p8 p9 p10 p11 p12 p13
    p14 p15 : Nat) : List Nat :=
  [82, 73, 70, 70, s0, s1, s2, s3, 87, 65, 86, 69,
   102, 109, 116, 32, 16, 0, 0, 0,
   p0, p1, p2, p3, p4, p5, p6, p7, p8, p9, p10, p11, p12, p13, p14, p15]

/-- A canonical AIFF file: `FORM<26>AIFF` followed by a single `COMM`
chunk of size 18 with symbolic payload bytes: channels `c0 c1`, frame
count `f0..f3`, bit depth `d0 d1`, extended-precision sample rate
exponent `e0 e1` and mantissa `m0..m7` (all big-endian). -/
def aiffCommFile (c0 c1 f0 f1 f2 f3 d0 d1 e0 e1 m0 m1 m2 m3 m4 m5 m6 m7 :
    Nat) : List Nat :=
  [70, 79, 82, 77, 0, 0, 0, 26, 65, 73, 70, 70,
   67, 79, 77, 77, 0, 0, 0, 18,
   c0, c1, f0, f1, f2, f3, d0, d1, e0, e1, m0, m1, m2, m3, m4, m5, m6, m7]

/-- A canonical WMA file: 30-byte ASF header followed by a single File
Properties object of size 104 whose play-duration bytes `p0..p7` and
preroll bytes `r0..r7` are symbolic (little-endian). -/
def wmaFilePropFile (p0 p1 p2 p3 p4 p5 p6 p7 r0 r1 r2 r3 r4 r5 r6 r7 :
    Nat) : List Nat :=
  [48, 38, 178, 117, 142, 102, 207, 17, 166, 217, 0, 170, 0, 98, 206, 108,
   0, 0, 0, 0, 0, 0, 0, 0, 0, 0, 0, 0, 0, 2,
   161, 220, 171, 140, 71, 169, 207, 17, 142, 228, 0, 192, 12, 32, 83, 101,
   104, 0, 0, 0, 0, 0, 0, 0,
   0, 0, 0, 0, 0, 0, 0, 0, 0, 0, 0, 0, 0, 0, 0, 0, 0, 0, 0, 0,
   0, 0, 0, 0, 0, 0, 0, 0, 0, 0, 0, 0, 0, 0, 0, 0, 0, 0, 0, 0,
   p0, p1, p2, p3, p4, p5, p6, p7,
   0, 0, 0, 0, 0, 0, 0, 0,
   r0, r1, r2, r3, r4, r5, r6, r7,
   0, 0, 0, 0, 0, 0, 0, 0, 0, 0, 0, 0, 0, 0, 0, 0]

-- ===================================================================
-- Theorems
-- ===================================================================

/-! ## Generic preservation lemmas about the data model -/

theorem getField_setExtra (t : Tag) (e : List (String × List String))
    (f : String) : Tag.getField { t with extra := e } f = t.getField f := rfl

theorem getField_addExtraVal (t : Tag) (n : String) (v : TagValue)
    (c : Bool) (f : String) :
    (addExtraVal t n v c).getField f = t.getField f := by
  unfold addExtraVal
  cases v with
  | str s =>
    simp only []
    repeat' split
    all_goals rfl
  | int n => rfl
  | flt q => rfl
  | img i => rfl

theorem getField_foldl_addExtraVal {α : Type} (g : Tag → α → Tag)
    (hg : ∀ a x, (g a x).getField = a.getField)
    (l : List α) (t : Tag) : (l.foldl g t).getField = t.getField := by
  induction l generalizing t with
  | nil => rfl
  | cons x xs ih => simpa [List.foldl, hg] using ih (g t x)

/-- Claim C1 (amended): an integer (or float) value that is falsy — zero —
never overwrites an existing truthy field value: `_set_field` returns the
tag unchanged. -/
theorem set_field_zero_int_preserves (t : Tag) (f : String) (c : Bool)
    (h : truthyOpt (t.getField f) = true) :
    t.setField f (TagValue.int 0) c = t := by
  unfold Tag.setField
  split
  · unfold addExtraVal
    rfl
  · simp [TagValue.truthy, h]

/-- Witness for `set_field_zero_int_preserves` at a concrete tag. -/
theorem set_field_zero_int_preserves_witness :
    truthyOpt ((emptyTag.setField "track" (TagValue.int 3) true).getField
      "track") = true ∧
    (emptyTag.setField "track" (TagValue.int 3) true).setField "track"
      (TagValue.int 0) true =
      emptyTag.setField "track" (TagValue.int 3) true :=
  ⟨by decide, set_field_zero_int_preserves _ _ _ (by decide)⟩

/-- Claim C1 is false as stated: a field holding the non-zero integer 3 is
overwritten by a later `_set_field` call with the non-zero integer 5. -/
theorem set_field_nonzero_int_overwrites :
    ((emptyTag.setField "track" (TagValue.int 3) true).getField "track" =
      some (TagValue.int 3)) ∧
    (((emptyTag.setField "track" (TagValue.int 3) true).setField "track"
      (TagValue.int 5) true).getField "track" = some (TagValue.int 5)) := by
  constructor
  · decide
  · decide

/-! ## Dispatcher claims -/

/-- Claim C2 (amended): for a size-0 byte source for which a parser class
is selected, `get` returns a tag whose filesize is 0 and whose every other
field is unset, without invoking the parser (the result is the same for
every `load` behaviour) and without raising.  (When no parser class is
selected, `get` raises `UnsupportedFormatError` even on size-0 sources —
see the counterexample.) -/
theorem get_empty_source_empty_tag
    (load : PKind → Tag → Bool → Bool → Bool → List Nat → Except PErr Tag)
    (filename : Option String) (tags dur img : Bool) (k : PKind)
    (h : getParserClass filename [] = some k) :
    getWith load filename [] tags dur img =
      Except.ok { emptyTag with filename := filename, filesize := 0 } := by
  unfold getWith
  simp [h, initTag]

/-- Witness for `get_empty_source_empty_tag`: an empty `.mp3` file. -/
theorem get_empty_source_empty_tag_witness :
    getParserClass (some "song.mp3") [] = some PKind.id3 ∧
    getWith (fun _ t _ _ _ _ => Except.ok t) (some "song.mp3") [] true true
        false =
      Except.ok { emptyTag with filename := some "song.mp3", filesize := 0 } :=
  ⟨rfl,
   get_empty_source_empty_tag _ _ _ _ _ PKind.id3 rfl⟩

/-- Claim C2 is false as stated: for the size-0 byte source with an
unsupported filename `x.xyz`, `get` raises `UnsupportedFormatError`
instead of returning an empty tag (parser-class selection runs before the
size check).  This holds for every parser behaviour `load`. -/
theorem get_empty_source_unsupported_raises :
    getWith (fun _ t _ _ _ _ => Except.ok t) (some "x.xyz") [] true true
      false = Except.error GetErr.unsupportedFormat := rfl

/-- Parser-class selection fails iff neither the extension table nor the
magic-byte table claims the input. -/
theorem getParserClass_none_iff (filename : Option String)
    (content : List Nat) :
    getParserClass filename content = none ↔
      (∀ f, filename = some f → getParserForFilename f = none) ∧
        getParserForFileHandle content = none := by
  cases filename with
  | none => simp [getParserClass]
  | some f =>
    by_cases hemp : f = ""
    · subst hemp
      have h0 : getParserForFilename "" = none := rfl
      simp [getParserClass, h0]
    · cases hp : getParserForFilename f with
      | none => simp [getParserClass, hemp, hp]
      | some k => simp [getParserClass, hemp, hp]

/-- Claim C3: `get` fails with `UnsupportedFormatError` iff no parser
claims the input — the (case-insensitively matched) file extension is not
in the supported-extension table and the leading bytes match none of the
magic-byte patterns.  Quantified over every parser behaviour `load`
(parser exceptions are wrapped in `ParseError`, never in
`UnsupportedFormatError`). -/
theorem get_unsupported_iff_no_claim
    (load : PKind → Tag → Bool → Bool → Bool → List Nat → Except PErr Tag)
    (filename : Option String) (content : List Nat) (tags dur img : Bool) :
    getWith load filename content tags dur img =
        Except.error GetErr.unsupportedFormat ↔
      (∀ f, filename = some f → getParserForFilename f = none) ∧
        getParserForFileHandle content = none := by
  rw [← getParserClass_none_iff]
  unfold getWith
  cases hsel : getParserClass filename content with
  | none => simp
  | some k =>
    simp only []
    constructor
    · intro h
      split at h
      · split at h <;> simp_all
      · simp_all
    · intro h
      simp_all

/-- Witness for `get_unsupported_iff_no_claim` at a concrete unsupported
input (forward direction of the iff applied to a concrete failure). -/
theorem get_unsupported_iff_no_claim_witness :
    (∀ f, (some "x.xyz" : Option String) = some f →
      getParserForFilename f = none) ∧
      getParserForFileHandle [0, 1, 2, 3] = none :=
  (get_unsupported_iff_no_claim (fun _ t _ _ _ _ => Except.ok t)
    (some "x.xyz") [0, 1, 2, 3] true true false).mp rfl

/-! ## Claim C7: Xing-header duration and bitrate -/

/-- Claim C7 (amended): for an MPEG stream whose audio data (at
`_bytepos_after_id3v2`) begins with a valid frame whose body contains a
Xing header with positive frame count `xf` and byte count `bc`, the
reported duration is `xf * samples_per_frame / samplerate` and the
reported bitrate is `bc * 8 / duration / 1000`, where `samples_per_frame`
is 576 whenever the MPEG version is 2 or 2.5 (for every layer — the
source ignores the layer here) and 1152 otherwise. -/
theorem xing_duration_formula
    (bs : List Nat) (bytepos : Nat) (t : Tag)
    (b0 b1 b2 b3 : Nat) (rest : List Nat) (off : Nat) (xf bc : Int)
    (hdrop : bs.drop bytepos = b0 :: b1 :: b2 :: b3 :: rest)
    (hsync : bytesLt [255, 224] [b0, b1] = true)
    (hbr0 : (b2 >>> 4) &&& 15 ≠ 0)
    (hbr14 : ¬((b2 >>> 4) &&& 15 > 14))
    (hsr : (b2 >>> 2) &&& 3 ≠ 3)
    (hlay : (b1 >>> 1) &&& 3 ≠ 0)
    (hmp : (b1 >>> 3) &&& 3 ≠ 1)
    (hxing : findSub (rd (b0 :: b1 :: b2 :: b3 :: rest) 0
        (mp3FrameLength b1 b2)) [88, 105, 110, 103] = some off)
    (hparse : parseXing (b0 :: b1 :: b2 :: b3 :: rest) (0 + off) =
      Except.ok (xf, bc))
    (hxf : 0 < xf) (hbc : 0 < bc) :
    ∃ t2, id3DetermineDuration bs t (some bytepos) = Except.ok t2 ∧
      t2.duration = some (TagValue.flt
        ((xf * (xingSamplesPerFrame ((b1 >>> 3) &&& 3)) : Int) /
          (mp3FrameSamplerate b1 b2 : Rat))) ∧
      t2.bitrate = some (TagValue.flt ((bc : Rat) * 8 /
        ((xf * (xingSamplesPerFrame ((b1 >>> 3) &&& 3)) : Int) /
          (mp3FrameSamplerate b1 b2 : Rat)) / 1000)) := by
  show ∃ t2, mp3Walk (bs.drop bytepos) t.filesize bytepos
      ((bs.drop bytepos).length + 1) 0
      { frames := 0, bitrateAccu := 0, frameSizeAccu := 0, audioOffset := 0,
        lastBitrates := [], firstMpegId := none, t := t } =
      Except.ok t2 ∧ _
  rw [hdrop]
  rw [mp3Walk]
  simp only [rd, List.drop_zero] at hxing ⊢
  rw [show List.take 4 (b0 :: b1 :: b2 :: b3 :: rest) = [b0, b1, b2, b3]
    from rfl]
  have hnl : ¬(([b0, b1, b2, b3] : List Nat).length < 4) := by simp
  rw [if_neg hnl]
  simp only [List.getD_cons_zero, List.getD_cons_succ]
  have hcond : ¬((!bytesLt [255, 224]
        (List.take 2 ([b0, b1, b2, b3] : List Nat))) = true ∨
      (none : Option Nat) ≠ none ∧
        (none : Option Nat) ≠ some ((b1 >>> 3) &&& 3) ∨
      (b2 >>> 4) &&& 15 > 14 ∨ (b2 >>> 4) &&& 15 = 0 ∨
      (b2 >>> 2) &&& 3 = 3 ∨ (b1 >>> 1) &&& 3 = 0 ∨
      (b1 >>> 3) &&& 3 = 1) := by
    rw [show List.take 2 ([b0, b1, b2, b3] : List Nat) = [b0, b1] from rfl,
      hsync]
    simp [hbr0, hbr14, hsr, hlay, hmp]
  rw [if_neg hcond]
  simp only [ite_true, if_true]
  rw [hxing]
  simp only []
  rw [hparse]
  simp only []
  rw [if_pos ⟨hxf, hbc⟩]
  exact ⟨_, rfl, rfl, rfl⟩

/-- Witness for `xing_duration_formula`: the MPEG-1 Layer III stream. -/
theorem xing_duration_formula_witness :
    ∃ t2, id3DetermineDuration mp3XingLayer3File
        { emptyTag with filesize := 20 } (some 0) = Except.ok t2 ∧
      t2.duration = some (TagValue.flt
        ((100 * (xingSamplesPerFrame ((251 >>> 3) &&& 3)) : Int) /
          (mp3FrameSamplerate 251 144 : Rat))) ∧
      t2.bitrate = some (TagValue.flt ((10000 : Rat) * 8 /
        ((100 * (xingSamplesPerFrame ((251 >>> 3) &&& 3)) : Int) /
          (mp3FrameSamplerate 251 144 : Rat)) / 1000)) :=
  xing_duration_formula mp3XingLayer3File 0 { emptyTag with filesize := 20 }
    255 251 144 0 [88, 105, 110, 103, 0, 0, 0, 3, 0, 0, 0, 100, 0, 0, 39, 16]
    4 100 10000 rfl (by decide) (by decide) (by decide) (by decide)
    (by decide) (by decide) (by decide) (by decide) (by decide) (by decide)

/-- Claim C7 is false as stated: on an MPEG-2 **Layer II** first frame with
a Xing header (frames = 100, bytes = 10000, samplerate 22050), the source
reports `100 * 576 / 22050` seconds, not the `100 * 1152 / 22050` that the
claim's "576 only for Layer III" formula requires. -/
theorem xing_mpeg2_layer2_counterexample :
    resDuration (id3DetermineDuration mp3XingLayer2File
        { emptyTag with filesize := 20 } (some 0)) =
      some (TagValue.flt ((100 * 576 : Int) / (22050 : Rat))) ∧
    ((100 * 576 : Int) / (22050 : Rat) : Rat) ≠
      ((100 * 1152 : Int) / (22050 : Rat) : Rat) := by
  constructor
  · rfl
  · norm_num

/-! ## Claim C4: empty strings in scalar string fields -/

/-- Claim C4 (amended, provable half): a string assignment — including the
empty string — never overwrites an existing truthy field value. -/
theorem set_field_string_never_overwrites_truthy (t : Tag) (f : String)
    (c : Bool) (s : String) (h : truthyOpt (t.getField f) = true) :
    (t.setField f (TagValue.str s) c).getField f = t.getField f := by
  unfold Tag.setField
  split
  · exact getField_addExtraVal ..
  · simp only [h, if_true]
    exact congrFun (getField_foldl_addExtraVal _
      (fun a p => by
        split
        · funext g
          exact getField_addExtraVal ..
        · rfl) _ t) f

/-- Witness for `set_field_string_never_overwrites_truthy`. -/
theorem set_field_string_never_overwrites_truthy_witness :
    truthyOpt ((emptyTag.setField "title" (TagValue.str "x") true).getField
      "title") = true ∧
    ((emptyTag.setField "title" (TagValue.str "x") true).setField "title"
      (TagValue.str "") true).getField "title" =
      (emptyTag.setField "title" (TagValue.str "x") true).getField "title" :=
  ⟨by decide,
   set_field_string_never_overwrites_truthy _ _ _ _ (by decide)⟩

/-- Claim C4 is false as stated: the AIFF text-chunk handler passes the
decoded chunk text to `_set_field` without an emptiness guard, so a NAME
chunk holding only NUL bytes stores the empty string in `title`. -/
theorem aiff_empty_name_stores_empty_title :
    resField (aiffLoad stdCtx aiffEmptyNameFile emptyTag) "title" =
      some (TagValue.str "") ∧
    (TagValue.str "").truthy = false := by
  constructor
  · rfl
  · decide

/-! ## Claim C6: positivity of channels / samplerate / bitdepth -/

/-- Claim C6 is false as stated: the AIFF `COMM` handler stores the raw
signed channel decode, so a chunk declaring 0xFFFF channels yields
`channels = -1` in a successfully returned tag — negative, and set while
smaller than 1. -/
theorem aiff_negative_channels_counterexample :
    resField (aiffLoad stdCtx aiffNegChannelsFile emptyTag) "channels" =
      some (TagValue.int (-1)) ∧
    ((-1 : Int) < 1) := by
  constructor
  · rfl
  · decide

/-- Unfolding one `fmt ` iteration of the WAVE chunk loop on the
canonical one-chunk file: the decoded bit depth `leVal [bd, 0]` is
clamped to 1 when 0 before being stored. -/
theorem waveFmt_step (x : Nat) (t : Tag) (bd : Nat) :
    waveChunkLoop stdCtx
      (waveFmtFile 0 0 0 0 0 0 0 0 0 0 0 0 0 0 0 0 0 0 bd 0) (x + 1) 12
      t =
    waveChunkLoop stdCtx
      (waveFmtFile 0 0 0 0 0 0 0 0 0 0 0 0 0 0 0 0 0 0 bd 0) x 36
      { t with
        bitrate := some (TagValue.flt
          ((0 * 0 * (if leVal [bd, 0] = 0 then 1 else leVal [bd, 0]) :
            Nat) / (1000 : Rat))),
        channels := some (TagValue.int 0),
        samplerate := some (TagValue.int 0),
        bitdepth := some (TagValue.int
          ((if leVal [bd, 0] = 0 then 1 else leVal [bd, 0] : Nat) :
            Int)) } := by
  have hb : ∀ {α β : Type} (a : α) (f : α → Except PErr β),
      (Except.ok a >>= f) = f a := fun _ _ => rfl
  rw [waveChunkLoop]
  norm_num [rd, rdE, leVal, waveFmtFile, List.take, List.drop, hb,
    List.foldr]

/-- The chunk loop stops with `Except.ok` at the end of the canonical
one-chunk file. -/
theorem waveFmt_eof (t : Tag) (bd : Nat) :
    waveChunkLoop stdCtx
      (waveFmtFile 0 0 0 0 0 0 0 0 0 0 0 0 0 0 0 0 0 0 bd 0) 36 36 t =
    Except.ok t := rfl

/-- C6 (amended): the WAVE `fmt ` chunk handler clamps a decoded bit
depth of 0 to 1 rather than discarding it: for every 16-bit bit-depth
decode `bd` the parse succeeds and the returned tag's `bitdepth` is
`if bd = 0 then 1 else bd` — in particular always at least 1. -/
theorem wave_fmt_bitdepth_clamped (bd : Nat) :
    ∃ t2, waveParseTag stdCtx
        (waveFmtFile 0 0 0 0 0 0 0 0 0 0 0 0 0 0 0 0 0 0 bd 0) emptyTag =
      Except.ok t2 ∧
      t2.bitdepth = some (TagValue.int
        ((if bd = 0 then 1 else bd : Nat) : Int)) ∧
      ∀ n : Int, t2.bitdepth = some (TagValue.int n) → 1 ≤ n := by
  have h0 : waveParseTag stdCtx
      (waveFmtFile 0 0 0 0 0 0 0 0 0 0 0 0 0 0 0 0 0 0 bd 0) emptyTag =
    waveChunkLoop stdCtx
      (waveFmtFile 0 0 0 0 0 0 0 0 0 0 0 0 0 0 0 0 0 0 bd 0)
      ((waveFmtFile 0 0 0 0 0 0 0 0 0 0 0 0 0 0 0 0 0 0 bd 0).length + 1)
      12 { emptyTag with bitdepth := some (TagValue.int 16) } := rfl
  have hlen :
      (waveFmtFile 0 0 0 0 0 0 0 0 0 0 0 0 0 0 0 0 0 0 bd 0).length = 36
    := rfl
  have hrun : waveParseTag stdCtx
      (waveFmtFile 0 0 0 0 0 0 0 0 0 0 0 0 0 0 0 0 0 0 bd 0) emptyTag =
    Except.ok
      { ({ emptyTag with bitdepth := some (TagValue.int 16) } : Tag) with
        bitrate := some (TagValue.flt
          ((0 * 0 * (if leVal [bd, 0] = 0 then 1 else leVal [bd, 0]) :
            Nat) / (1000 : Rat))),
        channels := some (TagValue.int 0),
        samplerate := some (TagValue.int 0),
        bitdepth := some (TagValue.int
          ((if leVal [bd, 0] = 0 then 1 else leVal [bd, 0] : Nat) :
            Int)) } := by
    rw [h0, hlen, waveFmt_step, waveFmt_eof]
  refine ⟨_, hrun, ?_, ?_⟩
  · show some (TagValue.int
        ((if leVal [bd, 0] = 0 then 1 else leVal [bd, 0] : Nat) : Int)) =
      some (TagValue.int ((if bd = 0 then 1 else bd : Nat) : Int))
    norm_num [leVal, List.foldr]
  · intro n hn
    simp only [Option.some.injEq, TagValue.int.injEq] at hn
    rw [show leVal [bd, 0] = bd by norm_num [leVal, List.foldr]] at hn
    by_cases h : bd = 0
    · simp [h] at hn
      omega
    · simp [h] at hn
      have := Nat.pos_of_ne_zero h
      omega

/-! ## Claim C9: AIFF extended-precision sample rate and overflow -/

/-- Unfolding the `COMM` iteration of the AIFF chunk loop on the
canonical one-chunk file, given that the decoded sample rate is non-zero
(a zero sample rate raises ZeroDivisionError, which the source does not
catch). -/
theorem aiffComm_step (x : Nat) (t : Tag)
    (c0 c1 f0 f1 f2 f3 d0 d1 e0 e1 m0 m1 m2 m3 m4 m5 m6 m7 : Nat)
    (hsr : extSampleRate (beVal [e0, e1])
      (beVal [m0, m1, m2, m3, m4, m5, m6, m7]) ≠ 0) :
    aiffChunkLoop stdCtx
      (aiffCommFile c0 c1 f0 f1 f2 f3 d0 d1 e0 e1 m0 m1 m2 m3 m4 m5 m6 m7)
      (x + 1) 12 t =
    aiffChunkLoop stdCtx
      (aiffCommFile c0 c1 f0 f1 f2 f3 d0 d1 e0 e1 m0 m1 m2 m3 m4 m5 m6 m7)
      x 38
      (if aiffOverflow
          (extSampleRate (beVal [e0, e1])
            (beVal [m0, m1, m2, m3, m4, m5, m6, m7]))
          (toSigned 16 (beVal [c0, c1])) (toSigned 16 (beVal [d0, d1]))
        then
          { t with
            channels := some (TagValue.int (toSigned 16 (beVal [c0, c1]))),
            bitdepth := some (TagValue.int (toSigned 16 (beVal [d0, d1]))) }
        else
          { t with
            channels := some (TagValue.int (toSigned 16 (beVal [c0, c1]))),
            bitdepth := some (TagValue.int (toSigned 16 (beVal [d0, d1]))),
            samplerate := some (TagValue.int (extSampleRate (beVal [e0, e1])
              (beVal [m0, m1, m2, m3, m4, m5, m6, m7]))),
            duration := some (TagValue.flt
              ((beVal [f0, f1, f2, f3] : Rat) /
                (extSampleRate (beVal [e0, e1])
                  (beVal [m0, m1, m2, m3, m4, m5, m6, m7]) : Nat))),
            bitrate := some (TagValue.flt
              (((extSampleRate (beVal [e0, e1])
                  (beVal [m0, m1, m2, m3, m4, m5, m6, m7]) : Int) *
                toSigned 16 (beVal [c0, c1]) *
                toSigned 16 (beVal [d0, d1]) : Int) / (1000 : Rat))) })
    := by
  have hb : ∀ {α β : Type} (a : α) (f : α → Except PErr β),
      (Except.ok a >>= f) = f a := fun _ _ => rfl
  have ht : (38 : Int).toNat = 38 := rfl
  rw [aiffChunkLoop]
  by_cases hov : aiffOverflow
      (extSampleRate (beVal [e0, e1])
        (beVal [m0, m1, m2, m3, m4, m5, m6, m7]))
      (toSigned 16 (beVal [c0, c1])) (toSigned 16 (beVal [d0, d1])) = true
  · norm_num [beVal, List.foldl] at hsr hov
    norm_num [rd, rdE, beVal, aiffCommFile, List.take, List.drop, hb,
      List.foldl, alGet, aiffMapping, seekRel, hsr, hov, ht]
  · norm_num [beVal, List.foldl] at hsr hov
    norm_num [rd, rdE, beVal, aiffCommFile, List.take, List.drop, hb,
      List.foldl, alGet, aiffMapping, seekRel, hsr, hov, ht]


/-- The AIFF chunk loop stops with `Except.ok` at the end of the
canonical one-chunk file. -/
theorem aiffComm_eof (t : Tag)
    (c0 c1 f0 f1 f2 f3 d0 d1 e0 e1 m0 m1 m2 m3 m4 m5 m6 m7 : Nat) :
    aiffChunkLoop stdCtx
      (aiffCommFile c0 c1 f0 f1 f2 f3 d0 d1 e0 e1 m0 m1 m2 m3 m4 m5 m6 m7)
      38 38 t = Except.ok t := rfl


/-- C9: the AIFF `COMM` handler decodes the 80-bit extended-precision
sample rate as `mantissa * 2 ^ (exponent - 0x3FFF - 63)` (truncated for
negative powers); when storing the derived values would overflow a
Python float, no error is raised and `samplerate`, `duration` and
`bitrate` are left unset, while the already-stored `channels` and
`bitdepth` (raw signed decodes) remain. -/
theorem aiff_comm_samplerate_decode
    (c0 c1 f0 f1 f2 f3 d0 d1 e0 e1 m0 m1 m2 m3 m4 m5 m6 m7 : Nat)
    (hsr : extSampleRate (beVal [e0, e1])
      (beVal [m0, m1, m2, m3, m4, m5, m6, m7]) ≠ 0) :
    ∃ t2, aiffParseTag stdCtx
        (aiffCommFile c0 c1 f0 f1 f2 f3 d0 d1 e0 e1 m0 m1 m2 m3 m4 m5 m6
          m7) emptyTag = Except.ok t2 ∧
      t2.channels = some (TagValue.int (toSigned 16 (beVal [c0, c1]))) ∧
      t2.bitdepth = some (TagValue.int (toSigned 16 (beVal [d0, d1]))) ∧
      (aiffOverflow
          (extSampleRate (beVal [e0, e1])
            (beVal [m0, m1, m2, m3, m4, m5, m6, m7]))
          (toSigned 16 (beVal [c0, c1])) (toSigned 16 (beVal [d0, d1])) =
            true →
        t2.samplerate = none ∧ t2.duration = none ∧ t2.bitrate = none) ∧
      (aiffOverflow
          (extSampleRate (beVal [e0, e1])
            (beVal [m0, m1, m2, m3, m4, m5, m6, m7]))
          (toSigned 16 (beVal [c0, c1])) (toSigned 16 (beVal [d0, d1])) =
            false →
        t2.samplerate = some (TagValue.int (extSampleRate (beVal [e0, e1])
          (beVal [m0, m1, m2, m3, m4, m5, m6, m7])))) := by
  have h0 : aiffParseTag stdCtx
      (aiffCommFile c0 c1 f0 f1 f2 f3 d0 d1 e0 e1 m0 m1 m2 m3 m4 m5 m6 m7)
      emptyTag =
    aiffChunkLoop stdCtx
      (aiffCommFile c0 c1 f0 f1 f2 f3 d0 d1 e0 e1 m0 m1 m2 m3 m4 m5 m6 m7)
      ((aiffCommFile c0 c1 f0 f1 f2 f3 d0 d1 e0 e1 m0 m1 m2 m3 m4 m5 m6
        m7).length + 1) 12 emptyTag := rfl
  have hlen : (aiffCommFile c0 c1 f0 f1 f2 f3 d0 d1 e0 e1 m0 m1 m2 m3 m4 m5
      m6 m7).length = 38 := rfl
  rw [h0, hlen,
    aiffComm_step 38 emptyTag c0 c1 f0 f1 f2 f3 d0 d1 e0 e1 m0 m1 m2 m3 m4
      m5 m6 m7 hsr,
    aiffComm_eof]
  refine ⟨_, rfl, ?_, ?_, ?_, ?_⟩
  · by_cases hov : aiffOverflow
        (extSampleRate (beVal [e0, e1])
          (beVal [m0, m1, m2, m3, m4, m5, m6, m7]))
        (toSigned 16 (beVal [c0, c1])) (toSigned 16 (beVal [d0, d1])) = true
    · rw [if_pos hov]
    · rw [if_neg hov]
  · by_cases hov : aiffOverflow
        (extSampleRate (beVal [e0, e1])
          (beVal [m0, m1, m2, m3, m4, m5, m6, m7]))
        (toSigned 16 (beVal [c0, c1])) (toSigned 16 (beVal [d0, d1])) = true
    · rw [if_pos hov]
    · rw [if_neg hov]
  · intro hov
    rw [if_pos hov]
    exact ⟨rfl, rfl, rfl⟩
  · intro hov
    rw [if_neg (by simp [hov])]


/-- Witness for `aiff_comm_samplerate_decode`: a COMM chunk with
exponent 0x403E and mantissa 1 (sample rate 1), 2 channels, bit depth
16. -/
theorem aiff_comm_samplerate_decode_witness :
    (extSampleRate (beVal [64, 62]) (beVal [0, 0, 0, 0, 0, 0, 0, 1]) ≠ 0) ∧
    (∃ t2, aiffParseTag stdCtx
        (aiffCommFile 0 2 0 0 0 100 0 16 64 62 0 0 0 0 0 0 0 1) emptyTag =
      Except.ok t2 ∧
      t2.channels = some (TagValue.int (toSigned 16 (beVal [0, 2]))) ∧
      t2.bitdepth = some (TagValue.int (toSigned 16 (beVal [0, 16]))) ∧
      (aiffOverflow
          (extSampleRate (beVal [64, 62]) (beVal [0, 0, 0, 0, 0, 0, 0, 1]))
          (toSigned 16 (beVal [0, 2])) (toSigned 16 (beVal [0, 16])) =
            true →
        t2.samplerate = none ∧ t2.duration = none ∧ t2.bitrate = none) ∧
      (aiffOverflow
          (extSampleRate (beVal [64, 62]) (beVal [0, 0, 0, 0, 0, 0, 0, 1]))
          (toSigned 16 (beVal [0, 2])) (toSigned 16 (beVal [0, 16])) =
            false →
        t2.samplerate = some (TagValue.int
          (extSampleRate (beVal [64, 62])
            (beVal [0, 0, 0, 0, 0, 0, 0, 1]))))) :=
  ⟨by decide,
   aiff_comm_samplerate_decode 0 2 0 0 0 100 0 16 64 62 0 0 0 0 0 0 0 1
     (by decide)⟩

/-! ## Claim C8: WMA File Properties duration -/

/-- Unfolding the File Properties iteration of the WMA object loop on
the canonical one-object file (the object size 104 must not exceed the
tag's filesize, or the loop stops without parsing). -/
theorem wmaFileProp_step (x : Nat) (t : Tag)
    (p0 p1 p2 p3 p4 p5 p6 p7 r0 r1 r2 r3 r4 r5 r6 r7 : Nat)
    (hfs : ¬ t.filesize < 104) :
    wmaObjLoop stdCtx
      (wmaFilePropFile p0 p1 p2 p3 p4 p5 p6 p7 r0 r1 r2 r3 r4 r5 r6 r7)
      (x + 1) 30 t =
    wmaObjLoop stdCtx
      (wmaFilePropFile p0 p1 p2 p3 p4 p5 p6 p7 r0 r1 r2 r3 r4 r5 r6 r7)
      x 134
      { t with duration := some (TagValue.flt
          (max ((leVal [p0, p1, p2, p3, p4, p5, p6, p7] : Rat) / 10000000 -
            (leVal [r0, r1, r2, r3, r4, r5, r6, r7] : Rat) / 1000) 0)) }
    := by
  have hb : ∀ {α β : Type} (a : α) (f : α → Except PErr β),
      (Except.ok a >>= f) = f a := fun _ _ => rfl
  rw [wmaObjLoop]
  norm_num [rd, rdE, leVal, wmaFilePropFile, List.take, List.drop, hb,
    List.foldr, asfContentDescriptionObject,
    asfExtendedContentDescriptionObject, asfFilePropertyObject, hfs]
  intro h
  simp at h

set_option maxRecDepth 10000 in
/-- The WMA object loop stops with `Except.ok` at the end of the
canonical one-object file. -/
theorem wmaFileProp_eof (t : Tag)
    (p0 p1 p2 p3 p4 p5 p6 p7 r0 r1 r2 r3 r4 r5 r6 r7 : Nat) :
    wmaObjLoop stdCtx
      (wmaFilePropFile p0 p1 p2 p3 p4 p5 p6 p7 r0 r1 r2 r3 r4 r5 r6 r7)
      134 134 t = Except.ok t := rfl

set_option maxRecDepth 10000 in
set_option maxHeartbeats 2000000 in
/-- C8: for a WMA file with a File Properties object the reported
duration is `max (play_duration / 10^7 - preroll / 10^3) 0` — the
64-bit little-endian play duration in 100-nanosecond units read after
skipping 40 payload bytes, minus the 64-bit little-endian preroll in
milliseconds read 8 bytes later, floored at zero — hence never
negative. -/
theorem wma_fileprop_duration
    (p0 p1 p2 p3 p4 p5 p6 p7 r0 r1 r2 r3 r4 r5 r6 r7 : Nat) :
    ∃ t2, wmaParseTag stdCtx
        (wmaFilePropFile p0 p1 p2 p3 p4 p5 p6 p7 r0 r1 r2 r3 r4 r5 r6 r7)
        { emptyTag with filesize := 134 } = Except.ok t2 ∧
      t2.duration = some (TagValue.flt
        (max ((leVal [p0, p1, p2, p3, p4, p5, p6, p7] : Rat) / 10000000 -
          (leVal [r0, r1, r2, r3, r4, r5, r6, r7] : Rat) / 1000) 0)) ∧
      ∀ q : Rat, t2.duration = some (TagValue.flt q) → 0 ≤ q := by
  have h0 : wmaParseTag stdCtx
      (wmaFilePropFile p0 p1 p2 p3 p4 p5 p6 p7 r0 r1 r2 r3 r4 r5 r6 r7)
      { emptyTag with filesize := 134 } =
    wmaObjLoop stdCtx
      (wmaFilePropFile p0 p1 p2 p3 p4 p5 p6 p7 r0 r1 r2 r3 r4 r5 r6 r7)
      (134 + 1) 30 { emptyTag with filesize := 134 } := by
    rw [wmaParseTag]
    simp only []
    rw [show rd (wmaFilePropFile p0 p1 p2 p3 p4 p5 p6 p7 r0 r1 r2 r3 r4
        r5 r6 r7) 0 30 =
      [48, 38, 178, 117, 142, 102, 207, 17, 166, 217, 0, 170, 0, 98, 206,
       108, 0, 0, 0, 0, 0, 0, 0, 0, 0, 0, 0, 0, 0, 2] from rfl]
    rw [if_neg (by decide :
      ¬(([48, 38, 178, 117, 142, 102, 207, 17, 166, 217, 0, 170, 0, 98,
          206, 108, 0, 0, 0, 0, 0, 0, 0, 0, 0, 0, 0, 0, 0, 2] :
          List Nat).take 16 ≠ asfHeaderGuid ∨
        ([48, 38, 178, 117, 142, 102, 207, 17, 166, 217, 0, 170, 0, 98,
          206, 108, 0, 0, 0, 0, 0, 0, 0, 0, 0, 0, 0, 0, 0, 2] :
          List Nat).drop 29 ≠ [2]))]
    rw [show (wmaFilePropFile p0 p1 p2 p3 p4 p5 p6 p7 r0 r1 r2 r3 r4 r5
      r6 r7).length = 134 from rfl]
  rw [h0,
    wmaFileProp_step 134 { emptyTag with filesize := 134 }
      p0 p1 p2 p3 p4 p5 p6 p7 r0 r1 r2 r3 r4 r5 r6 r7 (by decide),
    wmaFileProp_eof]
  refine ⟨_, rfl, rfl, ?_⟩
  intro q hq
  simp only [Option.some.injEq, TagValue.flt.injEq] at hq
  rw [← hq]
  exact le_max_right _ _

/-! ## Claim C5: image slots and Images._set_field -/

/-- C5 (amended): the `front_cover`, `back_cover` and `media` image slots
are lists, and `Images._set_field` appends each new image of a category
to that category's list — it never replaces an existing image and never
routes an additional image to `other` or `extra`. -/
theorem images_set_field_appends (i : Images) (v : ImageRec) :
    (i.setField "front_cover" v).front_cover = i.front_cover ++ [v] ∧
    (i.setField "back_cover" v).back_cover = i.back_cover ++ [v] ∧
    (i.setField "media" v).media = i.media ++ [v] ∧
    (i.setField "front_cover" v).other = i.other ∧
    (i.setField "front_cover" v).extra = i.extra :=
  ⟨rfl, rfl, rfl, rfl, rfl⟩

set_option maxRecDepth 10000 in
/-- Claim C5 is false as stated: an ID3v2 tag with two type-3 APIC
frames yields a tag whose `front_cover` slot holds both images, with
`other` and `extra` left empty. -/
theorem id3_two_apic_front_cover :
    ∃ t, id3Load (mkCtx dummyCodecs true false true) id3TwoApicFile
        emptyTag = Except.ok t ∧
      t.images.front_cover =
        [{ name := "front_cover", data := [171], mime_type := none,
           description := none },
         { name := "front_cover", data := [172], mime_type := none,
           description := none }] ∧
      t.images.other = [] ∧ t.images.extra = [] := by
  refine ⟨_, rfl, ?_, ?_, ?_⟩ <;> rfl

/-! ## Claim C10: no images without the image flag.

The preservation lemmas below show that every mutation the parsers
perform with `_load_image` disabled leaves `tag.images` unchanged. -/

theorem addExtraVal_images (t : Tag) (n : String) (v : TagValue)
    (c : Bool) : (addExtraVal t n v c).images = t.images := by
  unfold addExtraVal
  dsimp only
  repeat' split
  all_goals rfl

theorem setRaw_images (t : Tag) (f : String) (v : TagValue) :
    (t.setRaw f v).images = t.images := by
  unfold Tag.setRaw
  try dsimp only
  repeat' split
  all_goals rfl

theorem foldl_images_inv {α : Type} (l : List α) (f : Tag → α → Tag)
    (hf : ∀ acc a, (f acc a).images = acc.images) (t : Tag) :
    (l.foldl f t).images = t.images := by
  induction l generalizing t with
  | nil => rfl
  | cons a l ih => rw [List.foldl_cons, ih, hf]

theorem setField_images (t : Tag) (n : String) (v : TagValue)
    (c : Bool) : (t.setField n v c).images = t.images := by
  have hfold : ∀ (l : List (Nat × String)) (nm : String)
      (old : Option TagValue) (t0 : Tag),
      (l.foldl (fun acc p =>
        if p.1 ≠ 0 || (truthyOpt old && neqOld p.2 old) then
          addExtraVal acc nm (TagValue.str p.2) false
        else acc) t0).images = t0.images := by
    intro l nm old t0
    refine foldl_images_inv _ _ (fun acc a => ?_) t0
    split
    · exact addExtraVal_images acc nm (TagValue.str a.2) false
    · rfl
  unfold Tag.setField
  dsimp only
  repeat' split
  all_goals try simp_all [addExtraVal_images, setRaw_images, hfold]
  all_goals
    exact foldl_images_inv _ _
      (fun acc a => by split <;> simp [addExtraVal_images]) t

theorem images_update_empty (i : Images) : i.update Images.empty = i :=
  rfl

set_option maxHeartbeats 4000000 in
theorem tag_update_images (t o : Tag) :
    (t.update o).images = t.images.update o.images := by
  have hupd : ∀ (x : Tag) (nm : String) (v : Option TagValue),
      (match v with
       | some v2 => x.setField nm v2 true
       | none => x).images = x.images := by
    intro x nm v
    cases v <;> simp [setField_images]
  have h1 : ∀ (x : Tag),
      (List.foldl (fun (acc : Tag) (p : String × TagValue) =>
        acc.setField p.1 p.2 true) x o.dynamic).images = x.images :=
    fun x => foldl_images_inv o.dynamic _
      (fun acc p => setField_images acc p.1 p.2 true) x
  have h2 : ∀ (x : Tag),
      (List.foldl (fun (acc : Tag) (p : String × List String) =>
        List.foldl (fun acc2 v =>
          addExtraVal acc2 p.1 (TagValue.str v) false) acc p.2)
        x o.extra).images = x.images :=
    fun x => foldl_images_inv o.extra _
      (fun acc p => foldl_images_inv p.2 _
        (fun acc2 v => addExtraVal_images acc2 p.1 (TagValue.str v) false)
        acc) x
  simp only [Tag.update]
  rw [h1]
  try dsimp only
  congr 1
  rw [h2]
  simp only [hupd, setField_images]
  cases o.filename <;> simp [setField_images]

end Tinytag
